import Mathlib

/-!
# X-TIER guest/host control layer

A shallow embedding of `X-TIER/X-TIER_inject.c` (address translation, ABI register
marshalling, hypercall dispatch) and of `x-tier/qemu.c` (external command channel,
console question flow, injection completion).

Conventions of the embedding.

* `hwaddr`, `uint64_t` and the `kvm_regs` members are natural numbers below `2 ^ 64`;
  additions on them are reduced modulo `2 ^ 64`.  `long` and `int` values are integers.
* Every call that leaves the translated functions (platform translation, `ioctl`,
  stdio on a stream, console diagnostics) is appended to a log of `Event`s, in program
  order.  A function returns its result together with the events it produced.
* What the platform answers is supplied by a record of responses (`Platform`,
  `Channel`, `Driver`), one answer per call site.
* Constants of `<linux/xtier.h>`, which the sources include but do not contain, are the
  members of `XtierHeader`.
* `PRINT_DEBUG` and `PRINT_INFO` diagnostics are not logged; `PRINT_ERROR`,
  `PRINT_WARNING` and the `printf` warnings are.
* A result of `none` stands for undefined behaviour of the C program: signed overflow
  of an `int` counter, a read through a null pointer, a `strcpy` that writes beyond the
  storage of its array; or for a loop bound that was used up.  Memory faults on host
  reads are not modelled.
* The number of bytes that the compiled program sets aside for a variable length array
  is an answer of the record `Compiler`.  By the letter of the language a write beyond
  the declared length is undefined even when it stays within these bytes; the embedding
  follows the compiled program and reports the write only when it leaves them.
-/

namespace XTier

/-! ## Machine words -/

/-- Number of values of a 64-bit word. -/
def WORD64 : Nat := 2 ^ 64

/-- The value `-1` seen as `hwaddr`: what `gva_to_hva` returns when no mapping exists. -/
def HVA_INVALID : Nat := 2 ^ 64 - 1

/-- Largest value of a C `int`. -/
def INT_MAX : Int := 2 ^ 31 - 1

/-- Addition on `hwaddr`. -/
def hwaddr_add (a b : Nat) : Nat := (a + b) % WORD64

/-- Conversion of a 64-bit unsigned value to `long`. -/
def to_long (v : Nat) : Int :=
  if v % WORD64 < 2 ^ 63 then ((v % WORD64 : Nat) : Int) else ((v % WORD64 : Nat) : Int) - 2 ^ 64

/-! ## Records of the sources -/

/-- The general purpose part of `struct kvm_regs`. -/
structure kvm_regs where
  rax : Nat
  rbx : Nat
  rcx : Nat
  rdx : Nat
  rsi : Nat
  rdi : Nat
  rsp : Nat
  rbp : Nat
  r8 : Nat
  r9 : Nat
  deriving DecidableEq, Repr

/-- The record `struct XTIER_x86_call_registers` of `inject.h`. -/
structure XTIER_x86_call_registers where
  esp0 : Nat
  esp1 : Nat
  esp2 : Nat
  esp3 : Nat
  esp4 : Nat
  rdi : Nat
  rsi : Nat
  rdx : Nat
  rcx : Nat
  r8 : Nat
  r9 : Nat
  deriving DecidableEq, Repr

/-- Value `NONE` of `enum externel_command_redirect`. -/
def NONE : Nat := 0

/-- Value `PIPE` of `enum externel_command_redirect`. -/
def PIPE : Nat := 1

/-- Value `INJECTION` of `enum external_command_type`. -/
def INJECTION : Nat := 1

/-- The record `struct XTIER_external_command`. -/
structure XTIER_external_command where
  type : Nat
  data_len : Nat
  redirect : Nat
  deriving DecidableEq, Repr

/-- The record `struct XTIER_external_command_redirect`; `stream` is the `FILE *`,
`none` for `NULL`. -/
structure XTIER_external_command_redirect where
  type : Nat
  filename : String
  stream : Option Nat
  deriving DecidableEq, Repr

/-- The members of `struct injection` that the sources read. -/
structure injection where
  name : String
  code_len : Nat
  argc : Nat
  args_size : Nat
  deriving DecidableEq, Repr

/-- The members of `struct xtier_state` that the sources read. -/
structure xtier_state where
  return_value : Int
  cr3 : Nat
  deriving DecidableEq, Repr

/-- Console diagnostics of the sources, one constructor per message. -/
inductive Msg where
  | could_not_convert_esp
  | could_not_convert_data_pointer
  | could_not_open_file
  | unknown_hypercall
  | could_not_create_named_pipe
  | could_not_open_named_pipe
  | wrong_size_command_struct
  | wrong_size_redirect_struct
  | injection_without_code
  | error_while_injecting
  | unknown_command_type
  | performance_data_unavailable
  | state_unavailable
  | injection_fault
  | unknown_exit_reason
  | no_question_set
  | unknown_question_id
  | command_invalid_without_options
  | unknown_command
  | question_without_options
  deriving DecidableEq, Repr

/-- The functions that the command table of `qemu.c` stores as callbacks. -/
inductive CommandCallback where
  | XTIER_switch_to_monitor_mode
  | XTIER_switch_to_monitor_mode_keep_paused
  | XTIER_print_help
  | XTIER_command_receive_external_command
  deriving DecidableEq, Repr

/-- Calls that leave the translated functions, in the order the program makes them. -/
inductive Event where
  | gva_to_hva (addr : Nat)
  | ioctl_get_regs
  | ioctl_reserve_memory (arg : Nat)
  | ioctl_set_xtier_state (os : Nat)
  | ioctl_inject (inj : injection)
  | ioctl_get_performance
  | ioctl_get_state
  | print_dispatch (call_regs : XTIER_x86_call_registers)
  | host_printf (call_regs : XTIER_x86_call_registers)
  | fopen (filename : String)
  | fprintf (stream : Nat) (bytes : List Nat)
  | fclose (stream : Nat)
  | mkfifo
  | open_pipe
  | read (fd : Int) (count : Nat)
  | free_injection (inj : injection)
  | injection_from_fd (fd : Int)
  | cpu_synchronize_state
  | vm_stop
  | vm_start
  | memory_region_init
  | start_getting_user_input
  | stop_getting_user_input
  | error (m : Msg)
  | warning (m : Msg)
  | statistics (name : String)
  | finished_message (return_value : Int)
  | ask_question (id : Int)
  | question_callback (id : Int) (input : List Char)
  | command_callback (callback : CommandCallback) (offset : Nat) (arg : List Char)
  | help
  | prompt
  | switching_message
  deriving DecidableEq, Repr

/-- The constants of `<linux/xtier.h>` used by the sources. -/
structure XtierHeader where
  XTIER_OS_UNKNOWN : Nat
  XTIER_OS_LINUX_64 : Nat
  XTIER_OS_WINDOWS_7_32 : Nat
  XTIER_OS_LINUX_32 : Nat
  XTIER_HYPERCALL_RESERVE_MEMORY : Nat
  XTIER_HYPERCALL_PRINT : Nat
  XTIER_HYPERCALL_DATA_TRANSFER : Nat
  XTIER_EXIT_REASON_INJECT_FINISHED : Nat
  XTIER_EXIT_REASON_INJECT_FAULT : Nat
  XTIER_EXIT_REASON_INJECT_COMMAND : Nat
  XTIER_EXIT_REASON_DEBUG : Nat
  XTIER_EXTERNAL_OUTPUT_BEGIN : List Nat
  XTIER_EXTERNAL_OUTPUT_END : List Nat
  XTIER_EXTERNAL_COMMAND_RETURN_VALUE_FORMAT : Int → List Nat

/-- Answers of the platform to the calls made by `X-TIER_inject.c`. -/
structure Platform where
  gva_to_hva : Nat → Nat
  host_mem : Nat → Nat
  kvm_get_regs : kvm_regs
  fopen : String → Option Nat
  print_dispatch : kvm_regs → XTIER_x86_call_registers → Bool
  uninitialised_call_regs : XTIER_x86_call_registers

/-- Bytes that a log writes to the stream `h`, in order. -/
def written (h : Nat) : List Event → List Nat
  | [] => []
  | Event.fprintf h' bytes :: rest =>
    if h' = h then bytes ++ written h rest else written h rest
  | _ :: rest => written h rest

/-- An event that opens, writes or closes a stream. -/
def Event.is_stream_op : Event → Bool
  | Event.fopen _ => true
  | Event.fprintf _ _ => true
  | Event.fclose _ => true
  | _ => false

/-- An event that asks the platform for an address translation. -/
def Event.is_translation : Event → Bool
  | Event.gva_to_hva _ => true
  | _ => false

/-- An inject request to the platform. -/
def Event.is_inject : Event → Bool
  | Event.ioctl_inject _ => true
  | _ => false

/-- A set-profile request to the platform. -/
def Event.is_set_state : Event → Bool
  | Event.ioctl_set_xtier_state _ => true
  | _ => false

/-- A reserve-memory request to the platform. -/
def Event.is_reserve : Event → Bool
  | Event.ioctl_reserve_memory _ => true
  | _ => false

/-! ## `X-TIER_inject.c` -/

/-- Function `XTIER_inject_transform_call_register`: the platform translation of `inp`, or `inp`
itself when the platform returns `-1`. -/
def XTIER_inject_transform_call_register (P : Platform) (inp : Nat) : Nat × List Event :=
  let ret := P.gva_to_hva inp
  if ret = HVA_INVALID then (inp, [Event.gva_to_hva inp]) else (ret, [Event.gva_to_hva inp])

/-- Function `XTIER_inject_transform_call_registers64`. -/
def XTIER_inject_transform_call_registers64 (P : Platform) (vm_regs : kvm_regs)
    (call_regs : XTIER_x86_call_registers) : XTIER_x86_call_registers × List Event :=
  let rdi := XTIER_inject_transform_call_register P vm_regs.rdi
  let rsi := XTIER_inject_transform_call_register P vm_regs.rsi
  let rdx := XTIER_inject_transform_call_register P vm_regs.rdx
  let rcx := XTIER_inject_transform_call_register P vm_regs.rcx
  let r8 := XTIER_inject_transform_call_register P vm_regs.r8
  let r9 := XTIER_inject_transform_call_register P vm_regs.r9
  let call_regs := { call_regs with
    rdi := rdi.1, rsi := rsi.1, rdx := rdx.1, rcx := rcx.1, r8 := r8.1, r9 := r9.1 }
  let log := rdi.2 ++ rsi.2 ++ rdx.2 ++ rcx.2 ++ r8.2 ++ r9.2
  let esp := XTIER_inject_transform_call_register P vm_regs.rsp
  if esp.1 = vm_regs.rsp then
    (call_regs, log ++ esp.2 ++ [Event.warning Msg.could_not_convert_esp])
  else
    let esp0 := XTIER_inject_transform_call_register P (hwaddr_add esp.1 8)
    let esp1 := XTIER_inject_transform_call_register P (hwaddr_add esp.1 16)
    let esp2 := XTIER_inject_transform_call_register P (hwaddr_add esp.1 24)
    let esp3 := XTIER_inject_transform_call_register P (hwaddr_add esp.1 32)
    let esp4 := XTIER_inject_transform_call_register P (hwaddr_add esp.1 40)
    ({ call_regs with
        esp0 := esp0.1, esp1 := esp1.1, esp2 := esp2.1, esp3 := esp3.1, esp4 := esp4.1 },
      log ++ esp.2 ++ esp0.2 ++ esp1.2 ++ esp2.2 ++ esp3.2 ++ esp4.2)

/-- Function `XTIER_inject_transform_call_registers32`. -/
def XTIER_inject_transform_call_registers32 (P : Platform) (vm_regs : kvm_regs)
    (call_regs : XTIER_x86_call_registers) : XTIER_x86_call_registers × List Event :=
  let esp := XTIER_inject_transform_call_register P vm_regs.rsp
  let warn := if esp.1 = vm_regs.rsp then [Event.warning Msg.could_not_convert_esp] else []
  let rdi := XTIER_inject_transform_call_register P (hwaddr_add esp.1 4)
  let rsi := XTIER_inject_transform_call_register P (hwaddr_add esp.1 8)
  let rdx := XTIER_inject_transform_call_register P (hwaddr_add esp.1 12)
  let rcx := XTIER_inject_transform_call_register P (hwaddr_add esp.1 16)
  let r8 := XTIER_inject_transform_call_register P (hwaddr_add esp.1 20)
  let r9 := XTIER_inject_transform_call_register P (hwaddr_add esp.1 24)
  let esp0 := XTIER_inject_transform_call_register P (hwaddr_add esp.1 28)
  let esp1 := XTIER_inject_transform_call_register P (hwaddr_add esp.1 32)
  let esp2 := XTIER_inject_transform_call_register P (hwaddr_add esp.1 36)
  let esp3 := XTIER_inject_transform_call_register P (hwaddr_add esp.1 40)
  let esp4 := XTIER_inject_transform_call_register P (hwaddr_add esp.1 44)
  ({ call_regs with
      rdi := rdi.1, rsi := rsi.1, rdx := rdx.1, rcx := rcx.1, r8 := r8.1, r9 := r9.1,
      esp0 := esp0.1, esp1 := esp1.1, esp2 := esp2.1, esp3 := esp3.1, esp4 := esp4.1 },
    esp.2 ++ warn ++ rdi.2 ++ rsi.2 ++ rdx.2 ++ rcx.2 ++ r8.2 ++ r9.2
      ++ esp0.2 ++ esp1.2 ++ esp2.2 ++ esp3.2 ++ esp4.2)

/-- Function `XTIER_inject_handle_printk`; `os` is the global `_XTIER.os`.  The local `call_regs`
is not initialised by the source, its starting content is `P.uninitialised_call_regs`.
The inline assembly that calls the host `printf` is the event `host_printf`. -/
def XTIER_inject_handle_printk (K : XtierHeader) (os : Nat) (P : Platform)
    (regs : kvm_regs) : List Event :=
  let call_regs := P.uninitialised_call_regs
  if os = K.XTIER_OS_LINUX_64 then
    let r := XTIER_inject_transform_call_registers64 P regs call_regs
    if P.print_dispatch regs r.1 then
      r.2 ++ [Event.print_dispatch r.1]
    else
      r.2 ++ [Event.print_dispatch r.1, Event.host_printf r.1]
  else
    let r := XTIER_inject_transform_call_registers32 P regs call_regs
    r.2 ++ [Event.host_printf r.1]

/-- The loop `for (i = 0; i < size; i++) fprintf(stream, "%c", *(data_on_host + i))` of
`XTIER_inject_handle_data_transfer`, entered with counter `i`.  The counter is an `int`
and `size` a `long`: incrementing the counter at `INT_MAX` is undefined (`none`).  The
first argument bounds the number of iterations. -/
def data_transfer_loop (P : Platform) (stream data_on_host : Nat) (size : Int) :
    Nat → Int → Option (List Event)
  | 0, i => if i < size then none else some []
  | fuel + 1, i =>
    if i < size then
      if i = INT_MAX then none
      else
        (data_transfer_loop P stream data_on_host size fuel (i + 1)).map
          (fun rest =>
            Event.fprintf stream [P.host_mem (hwaddr_add data_on_host i.toNat)] :: rest)
    else some []

/-- Function `XTIER_inject_handle_data_transfer`: the redirect record after the call and the
events of the call. -/
def XTIER_inject_handle_data_transfer (K : XtierHeader) (P : Platform) (data : Nat)
    (size : Int) (redirect : Option XTIER_external_command_redirect) :
    Option (Option XTIER_external_command_redirect × List Event) :=
  let data_on_host := P.gva_to_hva data
  if data_on_host = HVA_INVALID then
    some (redirect, [Event.gva_to_hva data, Event.error Msg.could_not_convert_data_pointer])
  else
    match redirect with
    | none => some (none, [Event.gva_to_hva data])
    | some r =>
      if r.type = PIPE then
        match r.stream with
        | none =>
          match P.fopen r.filename with
          | none =>
            some (some r,
              [Event.gva_to_hva data, Event.fopen r.filename,
                Event.error Msg.could_not_open_file])
          | some h =>
            (data_transfer_loop P h data_on_host size size.toNat 0).map
              (fun copied =>
                (some { r with stream := some h },
                  [Event.gva_to_hva data, Event.fopen r.filename,
                    Event.fprintf h K.XTIER_EXTERNAL_OUTPUT_BEGIN] ++ copied))
        | some h =>
          (data_transfer_loop P h data_on_host size size.toNat 0).map
            (fun copied => (some r, Event.gva_to_hva data :: copied))
      else some (some r, [Event.gva_to_hva data])

/-- Function `XTIER_inject_handle_interrupt`; `os` is the global `_XTIER.os`. -/
def XTIER_inject_handle_interrupt (K : XtierHeader) (os : Nat) (P : Platform)
    (redirect : Option XTIER_external_command_redirect) :
    Option (Option XTIER_external_command_redirect × List Event) :=
  let regs := P.kvm_get_regs
  if regs.rax = K.XTIER_HYPERCALL_RESERVE_MEMORY then
    some (redirect, [Event.ioctl_get_regs, Event.ioctl_reserve_memory regs.rbx])
  else if regs.rax = K.XTIER_HYPERCALL_PRINT then
    some (redirect, Event.ioctl_get_regs :: XTIER_inject_handle_printk K os P regs)
  else if regs.rax = K.XTIER_HYPERCALL_DATA_TRANSFER then
    (XTIER_inject_handle_data_transfer K P regs.rbx (to_long regs.rcx) redirect).map
      (fun r => (r.1, Event.ioctl_get_regs :: r.2))
  else
    some (redirect, [Event.ioctl_get_regs, Event.error Msg.unknown_hypercall])

/-! ## `x-tier/qemu.c`: records and global state -/

/-- Conversion of an integer to a C `int` (32 bits, two's complement). -/
def to_int (v : Int) : Int :=
  if v % 2 ^ 32 < 2 ^ 31 then v % 2 ^ 32 else v % 2 ^ 32 - 2 ^ 32

/-- Conversion of a signed value to `size_t`. -/
def to_size_t (v : Int) : Int := v % 2 ^ 64

/-- The value of `sizeof(struct XTIER_external_command)`: two enumerations and an
`unsigned int`. -/
def sizeof_XTIER_external_command : Nat := 12

/-- The value of `sizeof(struct XTIER_external_command_redirect)`: an enumeration, 2048
characters and a pointer aligned to 8 bytes. -/
def sizeof_XTIER_external_command_redirect : Nat := 2064

/-- The record `struct XTIER_command`; a `NULL` list of sub commands is the empty list. -/
inductive XTIER_command where
  | mk (name : List Char) (description : List Char) (callback : Option CommandCallback)
      (sub_commands : List XTIER_command)

/-- Member `name` of `struct XTIER_command`. -/
def XTIER_command.name : XTIER_command → List Char
  | XTIER_command.mk n _ _ _ => n

/-- Member `description` of `struct XTIER_command`. -/
def XTIER_command.description : XTIER_command → List Char
  | XTIER_command.mk _ d _ _ => d

/-- Member `callback` of `struct XTIER_command`. -/
def XTIER_command.callback : XTIER_command → Option CommandCallback
  | XTIER_command.mk _ _ c _ => c

/-- Member `sub_commands` of `struct XTIER_command`. -/
def XTIER_command.sub_commands : XTIER_command → List XTIER_command
  | XTIER_command.mk _ _ _ l => l

mutual
/-- The record `struct XTIER_choice`. -/
inductive XTIER_choice where
  | mk (choice : Int) (description : List Char) (sub_question : Option XTIER_question)
/-- The record `struct XTIER_question`.  The callback is represented by the status it
returns for an input line.  The member `choices` is `none` for a `NULL` pointer, and
`number_of_choices` is the number of entries of the array (0 for a `NULL` pointer). -/
inductive XTIER_question where
  | mk (id : Int) (callback : List Char → Int) (choices : Option (List XTIER_choice))
end

/-- Member `choice` of `struct XTIER_choice`. -/
def XTIER_choice.choice : XTIER_choice → Int
  | XTIER_choice.mk c _ _ => c

/-- Member `description` of `struct XTIER_choice`. -/
def XTIER_choice.description : XTIER_choice → List Char
  | XTIER_choice.mk _ d _ => d

/-- Member `sub_question` of `struct XTIER_choice`. -/
def XTIER_choice.sub_question : XTIER_choice → Option XTIER_question
  | XTIER_choice.mk _ _ q => q

/-- Member `id` of `struct XTIER_question`. -/
def XTIER_question.id : XTIER_question → Int
  | XTIER_question.mk i _ _ => i

/-- Member `callback` of `struct XTIER_question`. -/
def XTIER_question.callback : XTIER_question → List Char → Int
  | XTIER_question.mk _ c _ => c

/-- Member `choices` of `struct XTIER_question`. -/
def XTIER_question.choices : XTIER_question → Option (List XTIER_choice)
  | XTIER_question.mk _ _ l => l

/-- The global variables of `qemu.c`. -/
structure Session where
  os : Nat
  initialized : Bool
  injection : Option injection
  external_command : XTIER_external_command
  external_command_redirect : XTIER_external_command_redirect
  external_command_fd : Int
  current_question : Option XTIER_question
  return_to : Option CommandCallback
  current_command : Option XTIER_command
  current_command_parent : Option XTIER_command

/-- Outcome of `mkfifo` on the control pipe. -/
inductive MkfifoResult where
  | created
  | already_exists
  | failed
  deriving DecidableEq, Repr

/-- Answers of the operating system and of the platform to the calls made by
`XTIER_command_receive_external_command`.  `command_read` and `redirect_read` are the
number of bytes the pipe delivers to the two `read` calls (`none` for an error),
`command` and `redirect` the content of the two records after a read that stored
something. -/
structure Channel where
  mkfifo : MkfifoResult
  open_fd : Int
  command_read : Option Nat
  command : XTIER_external_command
  redirect_read : Option Nat
  redirect : XTIER_external_command_redirect
  fopen : String → Option Nat
  injection_from_fd : injection
  ioctl_inject : Int

/-- Answers of the platform to the requests of `XTIER_handle_injection_finished`. -/
structure Driver where
  get_performance : Int
  get_state : Int
  state : xtier_state

/-- What the compiled program makes of a variable length array `char a[n]`:
`array_storage n` is the number of bytes it sets aside on the stack for the array. -/
structure Compiler where
  array_storage : Nat → Nat

/-- The system call `read(fd, buf, count)`: `-1` on an invalid descriptor or an error,
otherwise the number of bytes delivered, at most `count`. -/
def sys_read (fd : Int) (delivered : Option Nat) (count : Nat) : Int :=
  if fd < 0 then -1
  else
    match delivered with
    | none => -1
    | some k => ((min k count : Nat) : Int)

/-! ## `x-tier/qemu.c`: functions -/

/-- The array `top_level_commands`. -/
def top_level_commands : List XTIER_command :=
  [ XTIER_command.mk "cont".toList "Resume VM and return to 'monitor' Mode.".toList
      (some CommandCallback.XTIER_switch_to_monitor_mode) [],
    XTIER_command.mk "monitor".toList
      "Return to 'monitor' Mode, but do not resume VM.".toList
      (some CommandCallback.XTIER_switch_to_monitor_mode_keep_paused) [],
    XTIER_command.mk "quit".toList "Return to 'monitor' Mode. VM will be paused.".toList
      (some CommandCallback.XTIER_switch_to_monitor_mode_keep_paused) [],
    XTIER_command.mk "exit".toList "Return to 'monitor' Mode. VM will be paused.".toList
      (some CommandCallback.XTIER_switch_to_monitor_mode_keep_paused) [],
    XTIER_command.mk "help".toList "Print help information.".toList
      (some CommandCallback.XTIER_print_help) [],
    XTIER_command.mk "external".toList "Receive an external command.".toList
      (some CommandCallback.XTIER_command_receive_external_command) [] ]

/-- Function `_find_command`: the first entry named `name` among the sub commands of the current
command, or among the top level commands when no command is current. -/
def _find_command (S : Session) (name : List Char) : Option XTIER_command :=
  match S.current_command with
  | some c => c.sub_commands.find? (fun cmd => cmd.name = name)
  | none => top_level_commands.find? (fun cmd => cmd.name = name)

/-- Function `_find_choice`: the first choice of `q` whose number is `choice`. -/
def _find_choice (q : XTIER_question) (choice : Int) : Option XTIER_choice :=
  (q.choices.getD []).find? (fun c => c.choice = choice)

/-- The copy that `_print_long_line` and `XTIER_handle_input` start with, of a text into
an array declared with `strlen(text)` elements: `strcpy` writes the characters of the
text and the terminating zero, `strlen(text) + 1` bytes.  When these do not fit the
storage of the array, a byte of another object is overwritten and the behaviour is
undefined (`none`); otherwise the array holds the text. -/
def strcpy_to_array (T : Compiler) (text : List Char) : Option (List Char) :=
  if text.length + 1 ≤ T.array_storage text.length then some text else none

/-- The calls of `_print_long_line` to `PRINT_OUTPUT` and `PRINT_WARNING`, one
constructor per call site: `"%s "` with a word, `"%s"` with a word, the line break
followed by `padding_left` blanks, the final line break, and the warning. -/
inductive LineOutput where
  | word_and_blank (word : List Char)
  | word (word : List Char)
  | newline_and_padding (padding_left : Int)
  | newline
  | warning_word_too_long
  deriving DecidableEq, Repr

/-- The tokens that successive `strtok(_, " \n")` calls return on a text: the maximal
runs of characters other than the blank and the line feed.  `cur` holds the characters
of the token being read, last one first. -/
def strtok_words : List Char → List Char → List (List Char)
  | [], cur => if cur = [] then [] else [cur.reverse]
  | c :: cs, cur =>
    if c = ' ' ∨ c = '\n' then
      if cur = [] then strtok_words cs [] else cur.reverse :: strtok_words cs []
    else strtok_words cs (c :: cur)

/-- The `while (next)` loop of `_print_long_line` and the final `PRINT_OUTPUT("\n")`.
The list holds `next` and the tokens that `strtok` still has to return; `printed` and
`space_left` are the variables of the source; `data` is the text the function was
called with, read at `data[printed]` (the terminating zero beyond its last character).
The first argument bounds the number of iterations (`none` when it is used up). -/
def print_long_line_loop (padding_left width : Int) (data : List Char) :
    Nat → List (List Char) → Nat → Int → Option (List LineOutput)
  | _, [], _, _ => some [LineOutput.newline]
  | 0, _ :: _, _, _ => none
  | fuel + 1, next :: rest, printed, space_left =>
    if (next.length : Int) > width then
      some [LineOutput.warning_word_too_long]
    else if space_left - (next.length : Int) ≥ 0 then
      if data.getD (printed + next.length) (Char.ofNat 0) = ' ' then
        (print_long_line_loop padding_left width data fuel rest
            (printed + next.length + 1) (space_left - ((next.length : Int) + 1))).map
          (fun out => LineOutput.word_and_blank next :: out)
      else
        (print_long_line_loop padding_left width data fuel rest
            (printed + next.length + 1) width).map
          (fun out =>
            LineOutput.word next :: LineOutput.newline_and_padding padding_left :: out)
    else
      (print_long_line_loop padding_left width data fuel (next :: rest) printed width).map
        (fun out => LineOutput.newline_and_padding padding_left :: out)

/-- Function `_print_long_line`.  The text is copied to `data_copy`, and `strtok` runs
on the copy.  Two iterations per word are provided for. -/
def _print_long_line (T : Compiler) (padding_left width : Int) (data : List Char) :
    Option (List LineOutput) :=
  match strcpy_to_array T data with
  | none => none
  | some data_copy =>
    print_long_line_loop padding_left width data (2 * (strtok_words data_copy []).length)
      (strtok_words data_copy []) 0 width

/-- The constant `XTIER_QUESTION_OBTAIN_FILE_NAME`. -/
def XTIER_QUESTION_OBTAIN_FILE_NAME : Int := 2

/-- The constant `XTIER_QUESTION_OS`. -/
def XTIER_QUESTION_OS : Int := 8

/-- The constant `XTIER_QUESTION_INJECT_GET_FILE`. -/
def XTIER_QUESTION_INJECT_GET_FILE : Int := 9

/-- The constant `XTIER_QUESTION_EVENT_INJECT_SELECT_MODULE`. -/
def XTIER_QUESTION_EVENT_INJECT_SELECT_MODULE : Int := 10

/-- Function `XTIER_ask_current_question`: the text of the question for the four ids of
the switch (the event `ask_question`), a warning for every other id. -/
def XTIER_ask_current_question (S : Session) : List Event :=
  match S.current_question with
  | none => [Event.warning Msg.no_question_set]
  | some q =>
    if q.id = XTIER_QUESTION_OBTAIN_FILE_NAME ∨ q.id = XTIER_QUESTION_OS ∨
        q.id = XTIER_QUESTION_INJECT_GET_FILE ∨
        q.id = XTIER_QUESTION_EVENT_INJECT_SELECT_MODULE then
      [Event.ask_question q.id]
    else [Event.warning Msg.unknown_question_id]

/-- The part of `XTIER_command_receive_external_command` that starts at the comment
"Get the command itself": the switch on the type of the received command. -/
def receive_external_command_body (K : XtierHeader) (C : Channel) (S : Session) :
    Session × List Event :=
  if S.external_command.type = INJECTION then
    let freed :=
      match S.injection with
      | some old => [Event.free_injection old]
      | none => []
    let profile :=
      if S.os = K.XTIER_OS_UNKNOWN then [Event.ioctl_set_xtier_state K.XTIER_OS_LINUX_64]
      else []
    let S := { S with os := if S.os = K.XTIER_OS_UNKNOWN then K.XTIER_OS_LINUX_64 else S.os }
    let S := { S with injection := some C.injection_from_fd }
    let parsed := [Event.injection_from_fd S.external_command_fd]
    if C.injection_from_fd.code_len = 0 then
      (S, freed ++ profile ++ parsed ++ [Event.error Msg.injection_without_code])
    else
      let failed := if C.ioctl_inject < 0 then [Event.error Msg.error_while_injecting] else []
      (S, freed ++ profile ++ parsed ++ [Event.ioctl_inject C.injection_from_fd] ++ failed
        ++ [Event.cpu_synchronize_state])
  else
    (S, [Event.error Msg.unknown_command_type])

/-- Function `XTIER_command_receive_external_command`. -/
def XTIER_command_receive_external_command (K : XtierHeader) (C : Channel) (S : Session) :
    Session × List Event :=
  if S.external_command_fd = 0 ∧ C.mkfifo = MkfifoResult.failed then
    (S, [Event.mkfifo, Event.error Msg.could_not_create_named_pipe])
  else
    let opening := if S.external_command_fd = 0 then [Event.mkfifo, Event.open_pipe] else []
    let fd := if S.external_command_fd = 0 then C.open_fd else S.external_command_fd
    if S.external_command_fd = 0 ∧ C.open_fd < 0 then
      ({ S with external_command_fd := fd },
        opening ++ [Event.error Msg.could_not_open_named_pipe])
    else
      let S := { S with external_command_fd := fd }
      let n := to_int (sys_read fd C.command_read sizeof_XTIER_external_command)
      let S := { S with
        external_command := if 0 < n then C.command else S.external_command }
      let m := to_int (to_size_t ((sizeof_XTIER_external_command : Int) - to_size_t n))
      let log := opening ++ [Event.read fd sizeof_XTIER_external_command]
      if m ≠ 0 then
        (S, log ++ [Event.error Msg.wrong_size_command_struct])
      else if S.external_command.redirect ≠ NONE then
        let r := sys_read fd C.redirect_read sizeof_XTIER_external_command_redirect
        let S := { S with
          external_command_redirect :=
            if 0 < r then C.redirect else S.external_command_redirect }
        let log := log ++ [Event.read fd sizeof_XTIER_external_command_redirect]
        if to_size_t r ≠ (sizeof_XTIER_external_command_redirect : Int) then
          (S, log ++ [Event.error Msg.wrong_size_redirect_struct])
        else
          let S := { S with
            external_command_redirect := { S.external_command_redirect with stream := none } }
          if S.external_command_redirect.type = PIPE then
            match C.fopen S.external_command_redirect.filename with
            | none =>
              (S, log ++ [Event.fopen S.external_command_redirect.filename,
                Event.error Msg.could_not_open_file])
            | some h =>
              let S := { S with
                external_command_redirect :=
                  { S.external_command_redirect with stream := some h } }
              let rest := receive_external_command_body K C S
              (rest.1, log ++ [Event.fopen S.external_command_redirect.filename,
                Event.fprintf h K.XTIER_EXTERNAL_OUTPUT_BEGIN] ++ rest.2)
          else
            let rest := receive_external_command_body K C S
            (rest.1, log ++ rest.2)
      else
        let rest := receive_external_command_body K C S
        (rest.1, log ++ rest.2)

/-- Function `XTIER_print_injection_performance`; the statistics text is one event, with
the file name read from `_injection->name`.  When the request for the performance data
succeeds while `_injection` is `NULL`, that read goes through a null pointer (`none`). -/
def XTIER_print_injection_performance (D : Driver) (S : Session) : Option (List Event) :=
  if D.get_performance < 0 then
    some [Event.ioctl_get_performance, Event.error Msg.performance_data_unavailable]
  else
    match S.injection with
    | none => none
    | some inj => some [Event.ioctl_get_performance, Event.statistics inj.name]

/-- Function `XTIER_handle_injection_finished`. -/
def XTIER_handle_injection_finished (K : XtierHeader) (D : Driver) (S : Session) :
    Option (Session × List Event) :=
  match XTIER_print_injection_performance D S with
  | none => none
  | some log =>
    if D.get_state < 0 then
      some (S, log ++ [Event.ioctl_get_state, Event.error Msg.state_unavailable])
    else
      let return_value := D.state.return_value
      let log := log ++ [Event.ioctl_get_state, Event.finished_message return_value]
      if S.external_command_redirect.type ≠ NONE then
        match S.external_command_redirect.stream with
        | some h =>
          some ({ S with
              external_command_redirect :=
                { S.external_command_redirect with type := NONE, stream := none } },
            log ++ [Event.fprintf h (K.XTIER_EXTERNAL_COMMAND_RETURN_VALUE_FORMAT return_value),
              Event.fprintf h K.XTIER_EXTERNAL_OUTPUT_END, Event.fclose h,
              Event.cpu_synchronize_state])
        | none => some (S, log ++ [Event.cpu_synchronize_state])
      else some (S, log ++ [Event.cpu_synchronize_state])

/-- Function `XTIER_handle_injection_fault`. -/
def XTIER_handle_injection_fault (S : Session) : Session × List Event :=
  (S, [Event.error Msg.injection_fault, Event.cpu_synchronize_state])

/-- Function `XTIER_switch_to_XTIER_mode`, with `_XTIER_init` on the first call. -/
def XTIER_switch_to_XTIER_mode (K : XtierHeader) (S : Session) : Session × List Event :=
  let init := if S.initialized then [] else [Event.memory_region_init]
  let S :=
    if S.initialized then S else { S with os := K.XTIER_OS_UNKNOWN, initialized := true }
  let ask :=
    match S.current_question with
    | some _ => XTIER_ask_current_question S ++ [Event.prompt]
    | none => []
  (S, [Event.switching_message, Event.vm_stop] ++ init ++ ask
    ++ [Event.start_getting_user_input])

/-- Function `XTIER_switch_to_monitor_mode`. -/
def XTIER_switch_to_monitor_mode (S : Session) : Session × List Event :=
  ({ S with current_question := none, current_command := none },
    [Event.switching_message, Event.stop_getting_user_input, Event.vm_start])

/-- Function `XTIER_switch_to_monitor_mode_keep_paused`. -/
def XTIER_switch_to_monitor_mode_keep_paused (S : Session) : Session × List Event :=
  ({ S with current_question := none, current_command := none },
    [Event.switching_message, Event.stop_getting_user_input])

/-- Function `XTIER_print_help`.  For a question without a choice array the function
reports an error and prints nothing.  Otherwise it prints a table of the choices of the
current question, of the sub commands of the parent command, or of the top level
commands, with one `_print_long_line` call per description; the table is one event, and
the result is `none` when one of these calls is undefined. -/
def XTIER_print_help (T : Compiler) (S : Session) : Option (Session × List Event) :=
  match S.current_question with
  | some q =>
    match q.choices with
    | none => some (S, [Event.error Msg.question_without_options])
    | some choices =>
      if choices.all (fun ch => (_print_long_line T 20 40 ch.description).isSome) then
        some (S, [Event.help])
      else none
  | none =>
    let table :=
      match S.current_command_parent with
      | some parent =>
        if parent.sub_commands.isEmpty then top_level_commands else parent.sub_commands
      | none => top_level_commands
    if table.all (fun cmd => (_print_long_line T 30 40 cmd.description).isSome) then
      some (S, [Event.help])
    else none

/-- A call through a callback pointer of the command table. -/
def call_command_callback (K : XtierHeader) (T : Compiler) (C : Channel) (S : Session) :
    CommandCallback → Option (Session × List Event)
  | CommandCallback.XTIER_switch_to_monitor_mode => some (XTIER_switch_to_monitor_mode S)
  | CommandCallback.XTIER_switch_to_monitor_mode_keep_paused =>
    some (XTIER_switch_to_monitor_mode_keep_paused S)
  | CommandCallback.XTIER_print_help => XTIER_print_help T S
  | CommandCallback.XTIER_command_receive_external_command =>
    some (XTIER_command_receive_external_command K C S)

/-- The tokens that successive `strtok(_, " ")` calls return on a line: the maximal runs
of characters other than the blank.  `cur` holds the characters of the token being read,
last one first. -/
def strtok_tokens : List Char → List Char → List (List Char)
  | [], cur => if cur = [] then [] else [cur.reverse]
  | c :: cs, cur =>
    if c = ' ' then
      if cur = [] then strtok_tokens cs [] else cur.reverse :: strtok_tokens cs []
    else strtok_tokens cs (c :: cur)

/-- The characters that `isspace` accepts in the C locale. -/
def isspace (c : Char) : Bool :=
  c = ' ' ∨ c = '\t' ∨ c = '\n' ∨ c.toNat = 11 ∨ c.toNat = 12 ∨ c = '\r'

/-- The decimal digits at the start of a string, accumulated onto `acc`. -/
def atoi_digits : List Char → Int → Int
  | [], acc => acc
  | c :: cs, acc =>
    if c.isDigit then atoi_digits cs (acc * 10 + ((c.toNat - 48 : Nat) : Int)) else acc

/-- The library function `atoi`, as `(int) strtol(s, NULL, 10)`: optional white space, an
optional sign, decimal digits; the value is clamped to `long` and converted to `int`. -/
def atoi (s : List Char) : Int :=
  let value :=
    match s.dropWhile isspace with
    | '-' :: rest => - atoi_digits rest 0
    | '+' :: rest => atoi_digits rest 0
    | rest => atoi_digits rest 0
  to_int (max (-(2 ^ 63)) (min value (2 ^ 63 - 1)))

/-- The `while (cmd_part)` loop of `XTIER_handle_input` over the tokens still to come;
`cmdline_pointer` is the offset accumulated so far. -/
def handle_input_command_loop (S : Session) : List (List Char) → Nat → Session × Nat
  | [], cmdline_pointer => (S, cmdline_pointer)
  | cmd_part :: rest, cmdline_pointer =>
    match _find_command S cmd_part with
    | some cmd =>
      handle_input_command_loop
        { S with current_command_parent := S.current_command, current_command := some cmd }
        rest (cmdline_pointer + cmd_part.length + 1)
    | none => (S, cmdline_pointer)

/-- The final statement of `XTIER_handle_input`: the prompt, unless the line is one of
`cont`, `quit`, `exit`. -/
def handle_input_prompt (cmdline : List Char) : List Event :=
  if cmdline ≠ "cont".toList ∧ cmdline ≠ "quit".toList ∧ cmdline ≠ "exit".toList then
    [Event.prompt]
  else []

/-- Function `XTIER_handle_input`.  The line is copied to `cmdline_copy`, and `strtok`
runs on the copy. -/
def XTIER_handle_input (K : XtierHeader) (T : Compiler) (C : Channel) (S : Session)
    (cmdline : List Char) : Option (Session × List Event) :=
  match strcpy_to_array T cmdline with
  | none => none
  | some cmdline_copy =>
    let looped := handle_input_command_loop S (strtok_tokens cmdline_copy []) 0
    let S := looped.1
    let cmdline_pointer := looped.2
    match S.current_command with
    | some cmd =>
      let called : Option (Session × List Event) :=
        match cmd.callback with
        | some cb =>
          (call_command_callback K T C S cb).map
            (fun (r : Session × List Event) =>
              (r.1,
                Event.command_callback cb cmdline_pointer (cmdline.drop cmdline_pointer)
                  :: r.2))
        | none =>
          (XTIER_print_help T S).map
            (fun (r : Session × List Event) =>
              (r.1, Event.error Msg.command_invalid_without_options :: r.2))
      called.map
        (fun (called : Session × List Event) =>
          ({ called.1 with current_command := none, current_command_parent := none },
            called.2 ++ handle_input_prompt cmdline))
    | none =>
      match S.current_question with
      | some q =>
        let choice := atoi cmdline
        let ret := q.callback cmdline
        let log := [Event.question_callback q.id cmdline]
        if ret < 0 then
          some ({ S with current_question := none }, log ++ handle_input_prompt cmdline)
        else
          match (_find_choice q choice).bind XTIER_choice.sub_question with
          | some sub_question =>
            let S := { S with current_question := some sub_question }
            some (S, log ++ XTIER_ask_current_question S ++ handle_input_prompt cmdline)
          | none =>
            match S.return_to with
            | some _ =>
              some ({ S with return_to := none }, log ++ handle_input_prompt cmdline)
            | none =>
              some ({ S with current_question := none },
                log ++ handle_input_prompt cmdline)
      | none => some (S, [Event.error Msg.unknown_command] ++ handle_input_prompt cmdline)

/-- Function `XTIER_handle_exit`; `none` when the handler of the exit is undefined. -/
def XTIER_handle_exit (K : XtierHeader) (P : Platform) (D : Driver) (S : Session)
    (exit_reason : Nat) : Option (Session × List Event) :=
  if exit_reason = K.XTIER_EXIT_REASON_INJECT_FINISHED then
    (XTIER_handle_injection_finished K D S).map
      (fun a =>
        let b := XTIER_switch_to_XTIER_mode K a.1
        (b.1, a.2 ++ b.2 ++ [Event.prompt]))
  else if exit_reason = K.XTIER_EXIT_REASON_INJECT_FAULT then
    let a := XTIER_handle_injection_fault S
    let b := XTIER_switch_to_XTIER_mode K a.1
    some (b.1, a.2 ++ b.2 ++ [Event.prompt])
  else if exit_reason = K.XTIER_EXIT_REASON_INJECT_COMMAND then
    (XTIER_inject_handle_interrupt K S.os P (some S.external_command_redirect)).map
      (fun r =>
        ({ S with
            external_command_redirect := r.1.getD S.external_command_redirect },
          Event.cpu_synchronize_state :: r.2))
  else if exit_reason = K.XTIER_EXIT_REASON_DEBUG then
    let b := XTIER_switch_to_XTIER_mode K S
    some (b.1, b.2 ++ [Event.prompt])
  else
    some (S, [Event.error Msg.unknown_exit_reason])

/-- The record `struct XTIER_time`. -/
structure XTIER_time where
  sec : Nat
  ms : Nat
  ns : Nat
  deriving DecidableEq, Repr

/-- The constant `NSEC_PER_SEC`. -/
def NSEC_PER_SEC : Nat := 1000000000

/-- The constant `NSEC_PER_MSEC`. -/
def NSEC_PER_MSEC : Nat := 1000000

/-- Function `XTIER_ns_to_time`; `time` is the record behind the pointer, `none` for a
`NULL` pointer.  The arithmetic is that of `size_t` (64 bits). -/
def XTIER_ns_to_time (ns : Nat) (time : Option XTIER_time) : Option XTIER_time :=
  match time with
  | none => none
  | some t =>
    let sec := ns / NSEC_PER_SEC
    let t := { t with sec := sec }
    let ns := (ns + WORD64 - (t.sec * NSEC_PER_SEC) % WORD64) % WORD64
    let t := { t with ms := ns / NSEC_PER_MSEC }
    some { t with ns := ns % NSEC_PER_MSEC }

/-! ## Vocabulary of the statements -/

/-- The `n` bytes of host memory from address `host` on, in order. -/
def host_buffer (P : Platform) (host n : Nat) : List Nat :=
  (List.range n).map (fun k => P.host_mem (hwaddr_add host k))

/-- The `n` bytes of the guest buffer at guest address `data`, in order: the byte at a
guest address is the byte of host memory at the address it translates to. -/
def guest_buffer (P : Platform) (data n : Nat) : List Nat :=
  (List.range n).map (fun k => P.host_mem (P.gva_to_hva (hwaddr_add data k)))

/-- The guest buffer of `n` bytes at `data` lies at consecutive host addresses: the
address `data + k` translates to the translation of `data` plus `k`. -/
def mapped_contiguously (P : Platform) (data n : Nat) : Prop :=
  ∀ k, k < n → P.gva_to_hva (hwaddr_add data k) = hwaddr_add (P.gva_to_hva data) k

/-- The Address Translator applied to a guest value: the value component of
`XTIER_inject_transform_call_register`. -/
def translate (P : Platform) (v : Nat) : Nat :=
  (XTIER_inject_transform_call_register P v).1

/-- The redirect record of kind Pipe for `filename` with the given stream. -/
def pipe_target (filename : String) (stream : Option Nat) : XTIER_external_command_redirect :=
  { type := PIPE, filename := filename, stream := stream }

/-- The descriptor that `XTIER_command_receive_external_command` reads from: the one the
session holds, or the one `open` returns when the session holds none. -/
def channel_fd (S : Session) (C : Channel) : Int :=
  if S.external_command_fd = 0 then C.open_fd else S.external_command_fd

/-- A validly framed Injection command is received: the control pipe is available, the
read of the command header returns the size of the record, the header names the
Injection command and, when it declares a redirect, the read of the redirect descriptor
returns the size of that record. -/
def receives_framed_injection (S : Session) (C : Channel) : Prop :=
  ¬ (S.external_command_fd = 0 ∧ C.mkfifo = MkfifoResult.failed) ∧
  sys_read (channel_fd S C) C.command_read sizeof_XTIER_external_command =
    (sizeof_XTIER_external_command : Int) ∧
  C.command.type = INJECTION ∧
  (C.command.redirect ≠ NONE →
    sys_read (channel_fd S C) C.redirect_read sizeof_XTIER_external_command_redirect =
      (sizeof_XTIER_external_command_redirect : Int))

/-- The file of a declared Pipe redirect can be opened for writing. -/
def redirect_file_opens (C : Channel) : Prop :=
  C.command.redirect ≠ NONE → C.redirect.type = PIPE →
    C.fopen C.redirect.filename ≠ none

/-- The words of a description: what is left between the blanks and line feeds of the
text, in order, without the empty pieces. -/
def description_words (data : List Char) : List (List Char) :=
  (data.splitOnP (fun c => decide (c = ' ') || decide (c = '\n'))).filter
    (fun w => !w.isEmpty)

/-- The line and its terminating zero fit the storage of an array declared with as many
elements as the line has characters. -/
def copy_fits (T : Compiler) (text : List Char) : Prop :=
  text.length + 1 ≤ T.array_storage text.length

/-- One of the four question ids for which `XTIER_ask_current_question` has a text. -/
def known_question_id (id : Int) : Prop :=
  id = XTIER_QUESTION_OBTAIN_FILE_NAME ∨ id = XTIER_QUESTION_OS ∨
    id = XTIER_QUESTION_INJECT_GET_FILE ∨ id = XTIER_QUESTION_EVENT_INJECT_SELECT_MODULE

/-- The words that an output of `_print_long_line` emits, in order. -/
def emitted_words : List LineOutput → List (List Char)
  | [] => []
  | LineOutput.word_and_blank w :: rest => w :: emitted_words rest
  | LineOutput.word w :: rest => w :: emitted_words rest
  | _ :: rest => emitted_words rest

/-- The output lines of `_print_long_line`, each as the list of the words on it; `cur`
holds the words already on the line being read.  A line ends at each line break. -/
def output_lines : List LineOutput → List (List Char) → List (List (List Char))
  | [], cur => [cur]
  | LineOutput.word_and_blank w :: rest, cur => output_lines rest (cur ++ [w])
  | LineOutput.word w :: rest, cur => output_lines rest (cur ++ [w])
  | LineOutput.newline_and_padding _ :: rest, cur => cur :: output_lines rest []
  | LineOutput.newline :: rest, cur => cur :: output_lines rest []
  | LineOutput.warning_word_too_long :: rest, cur => output_lines rest cur

/-- The number of characters of the words of a line with one blank between neighbours. -/
def line_length (line : List (List Char)) : Nat :=
  (line.map List.length).sum + (line.length - 1)

/-- The number of characters that the words of a line take when each is followed by one
blank. -/
def blank_terminated_length (line : List (List Char)) : Nat :=
  (line.map (fun w => w.length + 1)).sum

/-- The characters that an output of `_print_long_line` puts on the console: a word and
a blank for `"%s "`, the word for `"%s"`, a line feed and the padding blanks for
`"\n%*.*s"` with an empty string, a line feed for `"\n"`.  The warning goes to the
warning channel. -/
def rendered : List LineOutput → List Char
  | [] => []
  | LineOutput.word_and_blank w :: rest => w ++ ' ' :: rendered rest
  | LineOutput.word w :: rest => w ++ rendered rest
  | LineOutput.newline_and_padding padding_left :: rest =>
    '\n' :: (List.replicate padding_left.natAbs ' ' ++ rendered rest)
  | LineOutput.newline :: rest => '\n' :: rendered rest
  | LineOutput.warning_word_too_long :: rest => rendered rest

/-- A character that separates words: the blank or the line feed. -/
def is_separator (c : Char) : Prop := c = ' ' ∨ c = '\n'

/-- The guest is paused. -/
def Event.is_vm_stop : Event → Bool
  | Event.vm_stop => true
  | _ => false

/-- The register state is synchronized. -/
def Event.is_synchronize : Event → Bool
  | Event.cpu_synchronize_state => true
  | _ => false

/-- A question is presented to the operator. -/
def Event.is_question : Event → Bool
  | Event.ask_question _ => true
  | _ => false

/-- An event of kind `p` occurs in the log and no event of kind `q` occurs before the
first one. -/
def happens_before (p q : Event → Bool) : List Event → Bool
  | [] => false
  | e :: rest => if p e then true else if q e then false else happens_before p q rest

/-- The case labels of the switch in `XTIER_handle_exit` are different constants. -/
def distinct_exit_reasons (K : XtierHeader) : Prop :=
  [K.XTIER_EXIT_REASON_INJECT_FINISHED, K.XTIER_EXIT_REASON_INJECT_FAULT,
    K.XTIER_EXIT_REASON_INJECT_COMMAND, K.XTIER_EXIT_REASON_DEBUG].Nodup

/-- The session reached by a sequence of `XTIER_handle_input` calls, each with the
answers of the control channel during that call and the input line; `none` when the
behaviour of one of the calls is undefined. -/
def handle_inputs (K : XtierHeader) (T : Compiler) (S : Session) :
    List (Channel × List Char) → Option Session
  | [] => some S
  | (C, cmdline) :: rest =>
    match XTIER_handle_input K T C S cmdline with
    | none => none
    | some r => handle_inputs K T r.1 rest

/-! ## Sample data -/

/-- A choice of the constants of `<linux/xtier.h>` for evaluating the functions. -/
def sample_header : XtierHeader where
  XTIER_OS_UNKNOWN := 0
  XTIER_OS_LINUX_64 := 1
  XTIER_OS_WINDOWS_7_32 := 2
  XTIER_OS_LINUX_32 := 3
  XTIER_HYPERCALL_RESERVE_MEMORY := 1
  XTIER_HYPERCALL_PRINT := 2
  XTIER_HYPERCALL_DATA_TRANSFER := 3
  XTIER_EXIT_REASON_INJECT_FINISHED := 100
  XTIER_EXIT_REASON_INJECT_FAULT := 101
  XTIER_EXIT_REASON_INJECT_COMMAND := 102
  XTIER_EXIT_REASON_DEBUG := 103
  XTIER_EXTERNAL_OUTPUT_BEGIN := [66, 69, 71]
  XTIER_EXTERNAL_OUTPUT_END := [69, 78, 68]
  XTIER_EXTERNAL_COMMAND_RETURN_VALUE_FORMAT := fun v => [82, v.toNat % 256]

/-- A register snapshot with every register zero. -/
def zero_regs : kvm_regs :=
  { rax := 0, rbx := 0, rcx := 0, rdx := 0, rsi := 0, rdi := 0, rsp := 0, rbp := 0,
    r8 := 0, r9 := 0 }

/-- A call-argument record with every slot zero. -/
def zero_call_regs : XTIER_x86_call_registers :=
  { esp0 := 0, esp1 := 0, esp2 := 0, esp3 := 0, esp4 := 0,
    rdi := 0, rsi := 0, rdx := 0, rcx := 0, r8 := 0, r9 := 0 }

/-- A platform that maps the guest page at `4096` to the host page at `8192`, has no
other mapping, holds the byte `a % 256` at host address `a`, and opens every file as
stream `7`. -/
def sample_platform : Platform where
  gva_to_hva := fun a => if 4096 ≤ a ∧ a < 8192 then a + 4096 else HVA_INVALID
  host_mem := fun a => a % 256
  kvm_get_regs := { zero_regs with rax := 1, rbx := 4660 }
  fopen := fun _ => some 7
  print_dispatch := fun _ _ => false
  uninitialised_call_regs := zero_call_regs

/-- A platform on which every guest address is mapped to the equal host address. -/
def identity_platform : Platform :=
  { sample_platform with gva_to_hva := fun a => a }

/-- A platform on which no file can be opened. -/
def closed_platform : Platform :=
  { sample_platform with fopen := fun _ => none }

/-- A platform whose register snapshot is a DataTransfer hypercall for the buffer at
`4096` with the size register `rcx = 2 ^ 64 - 1`. -/
def oversize_transfer_platform : Platform :=
  { sample_platform with
    kvm_get_regs := { zero_regs with rax := 3, rbx := 4096, rcx := 2 ^ 64 - 1 } }

/-- A platform that maps the guest page at `4096` to the host page at `8192` and the
following guest page, at `8192`, to the host page at `20480`, and holds at every host
address the number of its page. -/
def split_page_platform : Platform :=
  { sample_platform with
    gva_to_hva := fun a =>
      if 4096 ≤ a ∧ a < 8192 then a + 4096
      else if 8192 ≤ a ∧ a < 12288 then a + 12288
      else HVA_INVALID
    host_mem := fun a => a / 4096 }

/-- A compiler that sets aside a multiple of 16 bytes for a variable length array, the
stack alignment of the x86-64 calling convention. -/
def sample_compiler : Compiler where
  array_storage := fun n => (n + 15) / 16 * 16

/-- The global variables as the program starts: everything zero. -/
def initial_session : Session where
  os := 0
  initialized := false
  injection := none
  external_command := { type := 0, data_len := 0, redirect := 0 }
  external_command_redirect := { type := NONE, filename := "", stream := none }
  external_command_fd := 0
  current_question := none
  return_to := none
  current_command := none
  current_command_parent := none

/-- A session in which an injection runs with an open Pipe redirect on stream `7`. -/
def redirected_session : Session :=
  { initial_session with
    os := 1
    initialized := true
    injection := some { name := "module", code_len := 16, argc := 0, args_size := 0 }
    external_command := { type := INJECTION, data_len := 16, redirect := PIPE }
    external_command_redirect := pipe_target "out" (some 7)
    external_command_fd := 5 }

/-- A driver that answers every request with success and the return value `42`. -/
def sample_driver : Driver where
  get_performance := 0
  get_state := 0
  state := { return_value := 42, cr3 := 0 }

/-- A driver whose get-state request fails. -/
def failing_driver : Driver :=
  { sample_driver with get_state := -1 }

/-- A channel that delivers a complete Injection command without redirect for a module
of 16 code bytes. -/
def sample_channel : Channel where
  mkfifo := MkfifoResult.created
  open_fd := 5
  command_read := some 12
  command := { type := INJECTION, data_len := 16, redirect := NONE }
  redirect_read := none
  redirect := { type := NONE, filename := "", stream := none }
  fopen := fun _ => some 7
  injection_from_fd := { name := "module", code_len := 16, argc := 0, args_size := 0 }
  ioctl_inject := 0

/-- A channel that delivers a complete Injection command with a complete Pipe redirect
descriptor whose file cannot be opened. -/
def unwritable_redirect_channel : Channel :=
  { sample_channel with
    command := { type := INJECTION, data_len := 16, redirect := PIPE }
    redirect_read := some 2064
    redirect := { type := PIPE, filename := "/nonexistent/out", stream := none }
    fopen := fun _ => none }

/-- A channel whose first read delivers 8 of the 12 bytes of the command header. -/
def short_header_channel : Channel :=
  { sample_channel with command_read := some 8 }

/-- A channel that delivers an Injection command whose module has no code. -/
def empty_module_channel : Channel :=
  { sample_channel with
    injection_from_fd := { name := "module", code_len := 0, argc := 0, args_size := 0 } }

/-- A question without choices, accepting every answer. -/
def sample_sub_question : XTIER_question :=
  XTIER_question.mk 9 (fun _ => 1) none

/-- A question with the choices 1 (no sub question) and 2 (sub question
`sample_sub_question`), accepting every answer. -/
def sample_question : XTIER_question :=
  XTIER_question.mk 8 (fun _ => 1)
    (some [XTIER_choice.mk 1 "terminal".toList none,
      XTIER_choice.mk 2 "continue".toList (some sample_sub_question)])

/-- The sample question with a callback that rejects every answer. -/
def rejecting_question : XTIER_question :=
  XTIER_question.mk 8 (fun _ => -1)
    (some [XTIER_choice.mk 1 "terminal".toList none,
      XTIER_choice.mk 2 "continue".toList (some sample_sub_question)])

/-- A question whose choice 2 leads to a sub question with the id `5`, for which
`XTIER_ask_current_question` has no text. -/
def question_with_unlisted_sub_question : XTIER_question :=
  XTIER_question.mk 8 (fun _ => 1)
    (some [XTIER_choice.mk 1 "terminal".toList none,
      XTIER_choice.mk 2 "continue".toList (some (XTIER_question.mk 5 (fun _ => 1) none))])

/-- A platform whose register snapshot is a Print hypercall with an unmapped stack
pointer and a mapped first argument, and on which the stack area of the local
`call_regs` holds left-over values. -/
def stale_stack_platform : Platform :=
  { sample_platform with
    kvm_get_regs := { zero_regs with rax := 2, rdi := 4096, rsp := 64 }
    uninitialised_call_regs :=
      { esp0 := 57005, esp1 := 48879, esp2 := 51966, esp3 := 47806, esp4 := 61453,
        rdi := 1, rsi := 2, rdx := 3, rcx := 4, r8 := 5, r9 := 6 } }

/-- A channel on which the control pipe cannot be opened. -/
def unopenable_channel : Channel :=
  { sample_channel with open_fd := -1 }

/-- A session in console mode with the sample question pending. -/
def questioned_session : Session :=
  { initial_session with initialized := true, current_question := some sample_question }

/-- A session in which an injection runs with an open Pipe redirect while the sample
question is pending. -/
def redirected_questioned_session : Session :=
  { redirected_session with current_question := some sample_question }

/-! # Theorems -/

/-! ## Lemmas on logs -/

/-- The bytes written by two logs in sequence. -/
theorem written_append (h : Nat) (l₁ l₂ : List Event) :
    written h (l₁ ++ l₂) = written h l₁ ++ written h l₂ := by
  induction l₁ with
  | nil => rfl
  | cons e rest ih =>
    cases e <;> simp [written, ih]
    split <;> simp

/-- For a size that fits an `int`, the copy loop entered at a counter `i` with
`i + fuel = size` is defined and writes one byte per remaining offset, in order. -/
theorem data_transfer_loop_defined (P : Platform) (stream host : Nat) (size : Int)
    (hmax : size ≤ INT_MAX) :
    ∀ (fuel : Nat) (i : Int), 0 ≤ i → i + fuel = size →
      data_transfer_loop P stream host size fuel i =
        some ((List.range fuel).map
          (fun k => Event.fprintf stream [P.host_mem (hwaddr_add host (i.toNat + k))])) := by
  intro fuel
  induction fuel with
  | zero =>
    intro i _ hi
    have : ¬ i < size := by omega
    simp [data_transfer_loop, this]
  | succ n ih =>
    intro i h0 hi
    have hlt : i < size := by omega
    have hne : i ≠ INT_MAX := by
      intro h; rw [h] at hlt; omega
    have hstep := ih (i + 1) (by omega) (by push_cast at hi ⊢; omega)
    have htn : (i + 1).toNat = i.toNat + 1 := by omega
    simp only [data_transfer_loop, hlt, hne, if_true, if_false, hstep, Option.map_some']
    rw [List.range_succ_eq_map]
    simp [htn, Function.comp_def, Nat.add_assoc, Nat.add_comm 1]

/-! ## Address Translator and ABI Register Marshaller -/

/-- C1: for every vCPU context (the platform `P`) and every guest value `v`,
`XTIER_inject_transform_call_register` returns `v` itself when `gva_to_hva` returns `-1`
(no mapping) and the address returned by `gva_to_hva` otherwise. -/
theorem transform_call_register_fallback (P : Platform) (v : Nat) :
    (P.gva_to_hva v = HVA_INVALID → (XTIER_inject_transform_call_register P v).1 = v) ∧
    (P.gva_to_hva v ≠ HVA_INVALID →
      (XTIER_inject_transform_call_register P v).1 = P.gva_to_hva v) := by
  constructor
  · intro h
    simp [XTIER_inject_transform_call_register, h]
  · intro h
    simp [XTIER_inject_transform_call_register, h]

/-- C2, the claim as stated fails: on a platform that maps the stack page to the equal
host address the stack pointer `4096` translates successfully (to `4096`, not `-1`),
yet `XTIER_inject_transform_call_registers64` leaves slot `esp0` at its previous content
`0`, while the translation of `T + 8` is `4104`. -/
theorem transform_call_registers64_identity_mapped_stack :
    identity_platform.gva_to_hva 4096 = 4096 ∧ (4096 : Nat) ≠ HVA_INVALID ∧
    (XTIER_inject_transform_call_registers64 identity_platform
      { zero_regs with rsp := 4096 } zero_call_regs).1.esp0 = 0 ∧
    translate identity_platform (hwaddr_add 4096 8) = 4104 := by
  decide

/-- C2 (amended): for every register snapshot whose stack pointer translates successfully
to a host address `T` different from the raw stack pointer value,
`XTIER_inject_transform_call_registers64` sets the six argument slots to the translations
of the same-named guest registers and the five stack slots `esp0..esp4` to the
translations of `T + 8`, `T + 16`, `T + 24`, `T + 32`, `T + 40` (64-bit additions). -/
theorem transform_call_registers64_slots (P : Platform) (vm_regs : kvm_regs)
    (call_regs : XTIER_x86_call_registers) (T : Nat)
    (hT : P.gva_to_hva vm_regs.rsp = T) (hmapped : T ≠ HVA_INVALID)
    (hmoved : T ≠ vm_regs.rsp) :
    (XTIER_inject_transform_call_registers64 P vm_regs call_regs).1 =
      { rdi := translate P vm_regs.rdi, rsi := translate P vm_regs.rsi,
        rdx := translate P vm_regs.rdx, rcx := translate P vm_regs.rcx,
        r8 := translate P vm_regs.r8, r9 := translate P vm_regs.r9,
        esp0 := translate P (hwaddr_add T 8), esp1 := translate P (hwaddr_add T 16),
        esp2 := translate P (hwaddr_add T 24), esp3 := translate P (hwaddr_add T 32),
        esp4 := translate P (hwaddr_add T 40) } := by
  subst hT
  have hesp : (XTIER_inject_transform_call_register P vm_regs.rsp).1
      = P.gva_to_hva vm_regs.rsp := by
    simp [XTIER_inject_transform_call_register, hmapped]
  simp [XTIER_inject_transform_call_registers64, hesp, hmoved, translate]

/-- C2 (amended), at a concrete input: the stack pointer `4096` translates to `8192`. -/
theorem transform_call_registers64_slots_witness :
    (XTIER_inject_transform_call_registers64 sample_platform
      { zero_regs with rsp := 4096, rdi := 5000 } zero_call_regs).1 =
      { rdi := 9096, rsi := 0, rdx := 0, rcx := 0, r8 := 0, r9 := 0,
        esp0 := 8200, esp1 := 8208, esp2 := 8216, esp3 := 8224, esp4 := 8232 } :=
  transform_call_registers64_slots sample_platform
    { zero_regs with rsp := 4096, rdi := 5000 } zero_call_regs 8192
    (by decide) (by decide) (by decide)

/-- C3, the claim as stated fails: with the stack pointer `8188` at the end of the page
that the platform maps to `12284`, `XTIER_inject_transform_call_registers32` fills slot
`rdi` with `12288`, the translation of the translated stack pointer plus 4, while the
translation of the raw `rsp + 4 = 8192` is `8192`. -/
theorem transform_call_registers32_uses_translated_stack :
    (XTIER_inject_transform_call_registers32 sample_platform
      { zero_regs with rsp := 8188 } zero_call_regs).1.rdi = 12288 ∧
    translate sample_platform (hwaddr_add 8188 4) = 8192 ∧
    translate sample_platform 8188 = 12284 := by
  decide

/-- C3 (amended): for every register snapshot, `XTIER_inject_transform_call_registers32`
fills the eleven slots `rdi, rsi, rdx, rcx, r8, r9, esp0, ..., esp4`, in that order, with
the individual translations of `E + 4, E + 8, ..., E + 44`, where `E` is the Address
Translator's result for the guest stack pointer. -/
theorem transform_call_registers32_slots (P : Platform) (vm_regs : kvm_regs)
    (call_regs : XTIER_x86_call_registers) :
    (XTIER_inject_transform_call_registers32 P vm_regs call_regs).1 =
      { rdi := translate P (hwaddr_add (translate P vm_regs.rsp) 4),
        rsi := translate P (hwaddr_add (translate P vm_regs.rsp) 8),
        rdx := translate P (hwaddr_add (translate P vm_regs.rsp) 12),
        rcx := translate P (hwaddr_add (translate P vm_regs.rsp) 16),
        r8 := translate P (hwaddr_add (translate P vm_regs.rsp) 20),
        r9 := translate P (hwaddr_add (translate P vm_regs.rsp) 24),
        esp0 := translate P (hwaddr_add (translate P vm_regs.rsp) 28),
        esp1 := translate P (hwaddr_add (translate P vm_regs.rsp) 32),
        esp2 := translate P (hwaddr_add (translate P vm_regs.rsp) 36),
        esp3 := translate P (hwaddr_add (translate P vm_regs.rsp) 40),
        esp4 := translate P (hwaddr_add (translate P vm_regs.rsp) 44) } := by
  simp [XTIER_inject_transform_call_registers32, translate]

/-! ## Hypercall Dispatcher -/

theorem written_fprintf_bytes (h : Nat) (bytes : List Nat) :
    written h (bytes.map (fun b => Event.fprintf h [b])) = bytes := by
  induction bytes with
  | nil => rfl
  | cons b rest ih => simp [written, ih]

/-- For `0 ≤ size ≤ INT_MAX` the copy loop is defined and writes the host buffer. -/
theorem data_transfer_loop_copies (P : Platform) (stream host : Nat) (size : Int)
    (h0 : 0 ≤ size) (hmax : size ≤ INT_MAX) :
    data_transfer_loop P stream host size size.toNat 0 =
      some ((host_buffer P host size.toNat).map (fun b => Event.fprintf stream [b])) := by
  rw [data_transfer_loop_defined P stream host size hmax size.toNat 0 (le_refl 0) (by omega)]
  simp [host_buffer, Function.comp_def]

/-- For a size above `INT_MAX` the copy loop is undefined, however many iterations are
provided for: the counter reaches `INT_MAX` and is incremented. -/
theorem data_transfer_loop_overflows (P : Platform) (stream host : Nat) (size : Int)
    (hbig : INT_MAX < size) :
    ∀ (fuel : Nat) (i : Int), i ≤ INT_MAX →
      data_transfer_loop P stream host size fuel i = none := by
  intro fuel
  induction fuel with
  | zero =>
    intro i hi
    have hlt : i < size := by omega
    simp [data_transfer_loop, hlt]
  | succ n ih =>
    intro i hi
    have hlt : i < size := by omega
    by_cases hmax : i = INT_MAX
    · simp [data_transfer_loop, hmax, hbig]
    · have hstep := ih (i + 1) (by omega)
      simp [data_transfer_loop, hlt, hmax, hstep]

/-- A DataTransfer of more than `INT_MAX` bytes to a Pipe target that opens is
undefined. -/
theorem data_transfer_oversize_undefined (K : XtierHeader) (P : Platform) (data : Nat)
    (size : Int) (filename : String) (h : Nat) (hmapped : P.gva_to_hva data ≠ HVA_INVALID)
    (hopen : P.fopen filename = some h) (hbig : INT_MAX < size) :
    XTIER_inject_handle_data_transfer K P data size (some (pipe_target filename none)) =
      none := by
  simp [XTIER_inject_handle_data_transfer, hmapped, pipe_target, hopen,
    data_transfer_loop_overflows P h _ size hbig size.toNat 0 (by unfold INT_MAX; omega)]

/-- The bytes that the copy loop reads, from the translation of the buffer address on,
are the bytes of the guest buffer when the buffer lies at consecutive host addresses. -/
theorem host_buffer_of_contiguous (P : Platform) (data n : Nat)
    (hcontiguous : mapped_contiguously P data n) :
    host_buffer P (P.gva_to_hva data) n = guest_buffer P data n := by
  unfold host_buffer guest_buffer
  apply List.map_congr_left
  intro k hk
  rw [hcontiguous k (List.mem_range.mp hk)]

/-- C4, the claim as stated fails, at four inputs with a Pipe target that is not yet
open and a buffer whose pointer translates.  (1) The size register `rcx` holds
`2 ^ 64 - 1`: the `long` size is `-1` and the stream receives the begin-marker and not
one byte of the buffer.  (2) The file of the target cannot be opened: an error is
reported and nothing is written.  (3) The size is `2 ^ 31`: the `int` counter of the copy
loop overflows, the behaviour is undefined.  (4) The buffer of 4 bytes at guest address
`8190` crosses into a guest page that lies elsewhere in host memory: the guest buffer
holds `2, 2, 5, 5`, the stream receives `2, 2, 3, 3`. -/
theorem data_transfer_stream_deviations :
    (oversize_transfer_platform.kvm_get_regs.rax =
        sample_header.XTIER_HYPERCALL_DATA_TRANSFER ∧
      oversize_transfer_platform.gva_to_hva 4096 ≠ HVA_INVALID ∧
      to_long oversize_transfer_platform.kvm_get_regs.rcx = -1 ∧
      XTIER_inject_handle_data_transfer sample_header oversize_transfer_platform 4096 (-1)
          (some (pipe_target "out" none)) =
        some (some (pipe_target "out" (some 7)),
          [Event.gva_to_hva 4096, Event.fopen "out", Event.fprintf 7 [66, 69, 71]]) ∧
      XTIER_inject_handle_interrupt sample_header 1 oversize_transfer_platform
          (some (pipe_target "out" none)) =
        some (some (pipe_target "out" (some 7)),
          [Event.ioctl_get_regs, Event.gva_to_hva 4096, Event.fopen "out",
            Event.fprintf 7 [66, 69, 71]]) ∧
      written 7 [Event.ioctl_get_regs, Event.gva_to_hva 4096, Event.fopen "out",
          Event.fprintf 7 [66, 69, 71]] = sample_header.XTIER_EXTERNAL_OUTPUT_BEGIN) ∧
    (closed_platform.gva_to_hva 4096 ≠ HVA_INVALID ∧
      XTIER_inject_handle_data_transfer sample_header closed_platform 4096 3
          (some (pipe_target "out" none)) =
        some (some (pipe_target "out" none),
          [Event.gva_to_hva 4096, Event.fopen "out",
            Event.error Msg.could_not_open_file])) ∧
    (sample_platform.gva_to_hva 4096 ≠ HVA_INVALID ∧
      XTIER_inject_handle_data_transfer sample_header sample_platform 4096 (2 ^ 31)
          (some (pipe_target "out" none)) = none) ∧
    (split_page_platform.gva_to_hva 8190 ≠ HVA_INVALID ∧
      guest_buffer split_page_platform 8190 4 = [2, 2, 5, 5] ∧
      XTIER_inject_handle_data_transfer sample_header split_page_platform 8190 4
          (some (pipe_target "out" none)) =
        some (some (pipe_target "out" (some 7)),
          [Event.gva_to_hva 8190, Event.fopen "out", Event.fprintf 7 [66, 69, 71],
            Event.fprintf 7 [2], Event.fprintf 7 [2], Event.fprintf 7 [3],
            Event.fprintf 7 [3]])) := by
  refine ⟨by decide, by decide, ⟨by decide, ?_⟩, by decide⟩
  exact data_transfer_oversize_undefined sample_header sample_platform 4096 (2 ^ 31) "out" 7
    (by decide) rfl (by decide)

/-- C4 (amended): for every guest buffer whose pointer translates and which lies at
consecutive host addresses, every size with `0 ≤ size ≤ INT_MAX` and a Pipe redirect
target whose stream is not yet open and whose file can be opened, a DataTransfer opens
the file and writes to the stream exactly the begin-marker followed by exactly `size`
bytes equal to the contents of the guest buffer in order; a second DataTransfer (under
the same conditions on its buffer and size) on the same, now open, target opens nothing
and appends exactly its own `size2` bytes, without a begin-marker. -/
theorem data_transfer_pipe_stream (K : XtierHeader) (P P2 : Platform) (data data2 : Nat)
    (size size2 : Int) (filename : String) (h : Nat)
    (hmapped : P.gva_to_hva data ≠ HVA_INVALID)
    (hcontiguous : mapped_contiguously P data size.toNat)
    (hsize : 0 ≤ size ∧ size ≤ INT_MAX)
    (hopen : P.fopen filename = some h)
    (hmapped2 : P2.gva_to_hva data2 ≠ HVA_INVALID)
    (hcontiguous2 : mapped_contiguously P2 data2 size2.toNat)
    (hsize2 : 0 ≤ size2 ∧ size2 ≤ INT_MAX) :
    XTIER_inject_handle_data_transfer K P data size (some (pipe_target filename none)) =
      some (some (pipe_target filename (some h)),
        [Event.gva_to_hva data, Event.fopen filename,
          Event.fprintf h K.XTIER_EXTERNAL_OUTPUT_BEGIN]
        ++ (guest_buffer P data size.toNat).map (fun b => Event.fprintf h [b])) ∧
    written h ([Event.gva_to_hva data, Event.fopen filename,
          Event.fprintf h K.XTIER_EXTERNAL_OUTPUT_BEGIN]
        ++ (guest_buffer P data size.toNat).map (fun b => Event.fprintf h [b])) =
      K.XTIER_EXTERNAL_OUTPUT_BEGIN ++ guest_buffer P data size.toNat ∧
    ((guest_buffer P data size.toNat).length : Int) = size ∧
    XTIER_inject_handle_data_transfer K P2 data2 size2
        (some (pipe_target filename (some h))) =
      some (some (pipe_target filename (some h)),
        Event.gva_to_hva data2 ::
          (guest_buffer P2 data2 size2.toNat).map (fun b => Event.fprintf h [b])) ∧
    written h (Event.gva_to_hva data2 ::
          (guest_buffer P2 data2 size2.toNat).map (fun b => Event.fprintf h [b])) =
      guest_buffer P2 data2 size2.toNat ∧
    ((guest_buffer P2 data2 size2.toNat).length : Int) = size2 := by
  rw [← host_buffer_of_contiguous P data _ hcontiguous,
    ← host_buffer_of_contiguous P2 data2 _ hcontiguous2]
  refine ⟨?_, ?_, ?_, ?_, ?_, ?_⟩
  · simp [XTIER_inject_handle_data_transfer, hmapped, pipe_target, hopen,
      data_transfer_loop_copies P h _ size hsize.1 hsize.2]
  · rw [written_append, written_fprintf_bytes]
    simp [written]
  · simp [host_buffer]
    omega
  · simp [XTIER_inject_handle_data_transfer, hmapped2, pipe_target,
      data_transfer_loop_copies P2 h _ size2 hsize2.1 hsize2.2]
  · simp [written, written_fprintf_bytes]
  · simp [host_buffer]
    omega

/-- C4 (amended), at a concrete input: three bytes at guest address `4096`, then two
bytes at guest address `4200`, both within the one mapped page. -/
theorem data_transfer_pipe_stream_witness :
    XTIER_inject_handle_data_transfer sample_header sample_platform 4096 3
        (some (pipe_target "out" none)) =
      some (some (pipe_target "out" (some 7)),
        [Event.gva_to_hva 4096, Event.fopen "out", Event.fprintf 7 [66, 69, 71],
          Event.fprintf 7 [0], Event.fprintf 7 [1], Event.fprintf 7 [2]]) ∧
    XTIER_inject_handle_data_transfer sample_header sample_platform 4200 2
        (some (pipe_target "out" (some 7))) =
      some (some (pipe_target "out" (some 7)),
        [Event.gva_to_hva 4200, Event.fprintf 7 [104], Event.fprintf 7 [105]]) :=
  have key := data_transfer_pipe_stream sample_header sample_platform sample_platform
    4096 4200 3 2 "out" 7 (by decide) (by unfold mapped_contiguously; decide) (by decide)
    (by decide) (by decide) (by unfold mapped_contiguously; decide) (by decide)
  ⟨key.1, key.2.2.2.1⟩

/-- C5: if the DataTransfer pointer does not translate (`gva_to_hva` returns `-1`),
`XTIER_inject_handle_data_transfer` returns with the redirect target unchanged after
the translation request and an error report only: it opens no file and writes no byte
to any stream, for every size and every redirect target (absent or of any kind). -/
theorem data_transfer_untranslatable (K : XtierHeader) (P : Platform) (data : Nat)
    (size : Int) (redirect : Option XTIER_external_command_redirect)
    (hinvalid : P.gva_to_hva data = HVA_INVALID) :
    XTIER_inject_handle_data_transfer K P data size redirect =
      some (redirect,
        [Event.gva_to_hva data, Event.error Msg.could_not_convert_data_pointer]) ∧
    (∀ r log, XTIER_inject_handle_data_transfer K P data size redirect = some (r, log) →
      r = redirect ∧ (∀ e ∈ log, e.is_stream_op = false) ∧ ∀ h, written h log = []) := by
  have key : XTIER_inject_handle_data_transfer K P data size redirect =
      some (redirect,
        [Event.gva_to_hva data, Event.error Msg.could_not_convert_data_pointer]) := by
    simp [XTIER_inject_handle_data_transfer, hinvalid]
  refine ⟨key, ?_⟩
  intro r log hrun
  rw [key] at hrun
  cases hrun
  refine ⟨rfl, ?_, ?_⟩
  · intro e he
    simp at he
    rcases he with rfl | rfl <;> rfl
  · intro h
    rfl

/-- C5 at a concrete input: guest address `0` has no mapping on the sample platform. -/
theorem data_transfer_untranslatable_witness :
    XTIER_inject_handle_data_transfer sample_header sample_platform 0 5
        (some (pipe_target "out" none)) =
      some (some (pipe_target "out" none),
        [Event.gva_to_hva 0, Event.error Msg.could_not_convert_data_pointer]) :=
  (data_transfer_untranslatable sample_header sample_platform 0 5
    (some (pipe_target "out" none)) (by decide)).1

/-- C10: for every register snapshot whose command register `rax` holds the
ReserveMemory code, `XTIER_inject_handle_interrupt` fetches the registers and issues
exactly one reserve-memory request, carrying `rbx` verbatim, and nothing else: no
address translation (hence no run of the ABI marshaller, whose every run translates),
no operation on a redirect stream, and the redirect target is unchanged. -/
theorem handle_interrupt_reserve_memory (K : XtierHeader) (os : Nat) (P : Platform)
    (redirect : Option XTIER_external_command_redirect)
    (hcmd : P.kvm_get_regs.rax = K.XTIER_HYPERCALL_RESERVE_MEMORY) :
    XTIER_inject_handle_interrupt K os P redirect =
      some (redirect,
        [Event.ioctl_get_regs, Event.ioctl_reserve_memory P.kvm_get_regs.rbx]) ∧
    (∀ r log, XTIER_inject_handle_interrupt K os P redirect = some (r, log) →
      r = redirect ∧
      log.filter Event.is_reserve = [Event.ioctl_reserve_memory P.kvm_get_regs.rbx] ∧
      (∀ e ∈ log, e.is_translation = false) ∧
      (∀ e ∈ log, e.is_stream_op = false) ∧
      (∀ e ∈ log, ∀ c, e ≠ Event.host_printf c ∧ e ≠ Event.print_dispatch c)) := by
  have key : XTIER_inject_handle_interrupt K os P redirect =
      some (redirect,
        [Event.ioctl_get_regs, Event.ioctl_reserve_memory P.kvm_get_regs.rbx]) := by
    simp [XTIER_inject_handle_interrupt, hcmd]
  refine ⟨key, ?_⟩
  intro r log hrun
  rw [key] at hrun
  cases hrun
  refine ⟨rfl, rfl, ?_, ?_, ?_⟩
  · intro e he
    simp at he
    rcases he with rfl | rfl <;> rfl
  · intro e he
    simp at he
    rcases he with rfl | rfl <;> rfl
  · intro e he c
    simp at he
    rcases he with rfl | rfl <;> simp

/-- C10 at a concrete input: `rax = 1` (ReserveMemory) and `rbx = 4660`. -/
theorem handle_interrupt_reserve_memory_witness :
    XTIER_inject_handle_interrupt sample_header 1 sample_platform
        (some (pipe_target "out" (some 7))) =
      some (some (pipe_target "out" (some 7)),
        [Event.ioctl_get_regs, Event.ioctl_reserve_memory 4660]) :=
  (handle_interrupt_reserve_memory sample_header 1 sample_platform
    (some (pipe_target "out" (some 7))) (by decide)).1

/-! ## Injection completion -/

/-- The log of `XTIER_print_injection_performance` holds no stream operation. -/
theorem print_injection_performance_no_stream_op (D : Driver) (S : Session)
    (log : List Event) (hrun : XTIER_print_injection_performance D S = some log) :
    log.filter Event.is_stream_op = [] ∧ ∀ h, written h log = [] := by
  unfold XTIER_print_injection_performance at hrun
  split at hrun
  · cases hrun
    exact ⟨rfl, fun _ => rfl⟩
  · split at hrun
    · cases hrun
    · cases hrun
      exact ⟨rfl, fun _ => rfl⟩

/-- While an injection is recorded, `XTIER_print_injection_performance` is defined. -/
theorem print_injection_performance_defined (D : Driver) (S : Session) (inj : injection)
    (hinj : S.injection = some inj) :
    ∃ log, XTIER_print_injection_performance D S = some log := by
  unfold XTIER_print_injection_performance
  by_cases hperf : D.get_performance < 0
  · exact ⟨[Event.ioctl_get_performance, Event.error Msg.performance_data_unavailable],
      by simp [hperf]⟩
  · exact ⟨[Event.ioctl_get_performance, Event.statistics inj.name], by simp [hperf, hinj]⟩

/-- C6, the claim as stated fails, at two inputs with a Pipe redirect open on stream
`7`.  (1) The get-state request returns a negative status: the injection-finished exit
writes nothing to the stream and leaves the target of kind Pipe with its stream open.
(2) No injection is recorded while the request for the performance data succeeds: the
statistics read the file name through the null pointer `_injection`, the behaviour is
undefined. -/
theorem injection_finished_redirect_deviations :
    (redirected_session.external_command_redirect = pipe_target "out" (some 7) ∧
      (XTIER_handle_injection_finished sample_header failing_driver redirected_session).map
          (fun r => (r.1.external_command_redirect, r.2)) =
        some (pipe_target "out" (some 7),
          [Event.ioctl_get_performance, Event.statistics "module",
            Event.ioctl_get_state, Event.error Msg.state_unavailable])) ∧
    (({ redirected_session with injection := none } : Session).external_command_redirect =
        pipe_target "out" (some 7) ∧
      0 ≤ sample_driver.get_performance ∧ 0 ≤ sample_driver.get_state ∧
      (XTIER_handle_injection_finished sample_header sample_driver
        { redirected_session with injection := none }).isSome = false) := by
  decide

/-- An injection-finished exit with a redirect target of kind None performs no stream
operation. -/
theorem injection_finished_without_redirect (K : XtierHeader) (D : Driver) (S : Session)
    (perf : List Event) (hperf : XTIER_print_injection_performance D S = some perf)
    (hnone : S.external_command_redirect.type = NONE) :
    ∃ log, XTIER_handle_injection_finished K D S = some (S, log) ∧
      log.filter Event.is_stream_op = [] := by
  obtain ⟨hperf_ops, _⟩ := print_injection_performance_no_stream_op D S perf hperf
  by_cases hstate : D.get_state < 0
  · refine ⟨perf ++ [Event.ioctl_get_state, Event.error Msg.state_unavailable], ?_, ?_⟩
    · simp [XTIER_handle_injection_finished, hperf, hstate]
    · simp [List.filter_append, hperf_ops, List.filter, Event.is_stream_op]
  · refine ⟨perf ++ [Event.ioctl_get_state, Event.finished_message D.state.return_value]
      ++ [Event.cpu_synchronize_state], ?_, ?_⟩
    · simp [XTIER_handle_injection_finished, hperf, hstate, hnone]
    · simp [List.filter_append, hperf_ops, List.filter, Event.is_stream_op]

/-- C6 (amended): on an injection-finished exit taken while an injection is recorded,
whose get-state request returns a non-negative status, with a redirect target of kind
Pipe whose stream `h` is open, `XTIER_handle_injection_finished` returns, having written
to the stream the return-value token and then the end-marker, closed it, and performed
no other stream operation; the target is left with kind None and no stream and the rest
of the session is unchanged; a following injection-finished exit, whatever the platform
answers, returns without any stream operation. -/
theorem injection_finished_redirect (K : XtierHeader) (D D2 : Driver) (S : Session)
    (inj : injection) (h : Nat) (hinj : S.injection = some inj)
    (hstate : 0 ≤ D.get_state) (hkind : S.external_command_redirect.type = PIPE)
    (hopen : S.external_command_redirect.stream = some h) :
    ∃ log log2,
      XTIER_handle_injection_finished K D S =
        some ({ S with
            external_command_redirect :=
              { S.external_command_redirect with type := NONE, stream := none } }, log) ∧
      log.filter Event.is_stream_op =
        [Event.fprintf h (K.XTIER_EXTERNAL_COMMAND_RETURN_VALUE_FORMAT D.state.return_value),
          Event.fprintf h K.XTIER_EXTERNAL_OUTPUT_END, Event.fclose h] ∧
      written h log =
        K.XTIER_EXTERNAL_COMMAND_RETURN_VALUE_FORMAT D.state.return_value
          ++ K.XTIER_EXTERNAL_OUTPUT_END ∧
      XTIER_handle_injection_finished K D2
          { S with
            external_command_redirect :=
              { S.external_command_redirect with type := NONE, stream := none } } =
        some ({ S with
            external_command_redirect :=
              { S.external_command_redirect with type := NONE, stream := none } }, log2) ∧
      log2.filter Event.is_stream_op = [] := by
  have hneg : ¬ D.get_state < 0 := by omega
  have hne : S.external_command_redirect.type ≠ NONE := by rw [hkind]; decide
  obtain ⟨perf, hperf⟩ := print_injection_performance_defined D S inj hinj
  obtain ⟨hperf_ops, hperf_written⟩ := print_injection_performance_no_stream_op D S perf hperf
  obtain ⟨perf2, hperf2⟩ := print_injection_performance_defined D2
    { S with
      external_command_redirect :=
        { S.external_command_redirect with type := NONE, stream := none } } inj hinj
  obtain ⟨log2, hrun2, hops2⟩ := injection_finished_without_redirect K D2 _ perf2 hperf2 rfl
  refine ⟨perf ++ [Event.ioctl_get_state, Event.finished_message D.state.return_value]
      ++ [Event.fprintf h (K.XTIER_EXTERNAL_COMMAND_RETURN_VALUE_FORMAT D.state.return_value),
        Event.fprintf h K.XTIER_EXTERNAL_OUTPUT_END, Event.fclose h,
        Event.cpu_synchronize_state], log2, ?_, ?_, ?_, hrun2, hops2⟩
  · simp [XTIER_handle_injection_finished, hperf, hneg, hne, hopen]
  · simp [List.filter_append, hperf_ops, List.filter, Event.is_stream_op]
  · simp [written_append, hperf_written, written]

/-- C6 (amended), at a concrete input: the return value `42` on stream `7`. -/
theorem injection_finished_redirect_witness :
    ∃ log,
      XTIER_handle_injection_finished sample_header sample_driver redirected_session =
        some ({ redirected_session with
            external_command_redirect := { type := NONE, filename := "out", stream := none } },
          log) ∧
      log.filter Event.is_stream_op =
        [Event.fprintf 7 [82, 42], Event.fprintf 7 [69, 78, 68], Event.fclose 7] ∧
      written 7 log = [82, 42, 69, 78, 68] := by
  obtain ⟨log, _, hrun, hops, hwritten, _⟩ := injection_finished_redirect sample_header
    sample_driver sample_driver redirected_session _ 7 rfl (by decide) (by decide) (by decide)
  exact ⟨log, hrun, hops, hwritten⟩

/-! ## External Command Channel -/

theorem sys_read_range (fd : Int) (delivered : Option Nat) (count : Nat) :
    -1 ≤ sys_read fd delivered count ∧ sys_read fd delivered count ≤ count := by
  unfold sys_read
  split
  · omega
  · cases delivered with
    | none => simp; omega
    | some k => simp; omega

/-- A `read` that returns the full count was made on a valid descriptor. -/
theorem sys_read_full_fd (fd : Int) (delivered : Option Nat) (count : Nat)
    (h : sys_read fd delivered count = (count : Int)) : 0 ≤ fd := by
  unfold sys_read at h
  split at h
  · omega
  · omega

/-- The test `m != 0` on the header read fails exactly for a full read. -/
theorem header_size_check (r : Int) (hlo : -1 ≤ r) (hhi : r ≤ 12) :
    to_int (to_size_t (12 - to_size_t (to_int r))) = 0 ↔ r = 12 := by
  unfold to_int to_size_t
  norm_num
  constructor
  · intro h
    split_ifs at h <;> omega
  · intro h
    subst h
    norm_num

/-- The comparison of the redirect read with the record size, made in `size_t`, is
equality of the values. -/
theorem redirect_size_check (r : Int) (hlo : -1 ≤ r) (hhi : r ≤ 2064) :
    to_size_t r = 2064 ↔ r = 2064 := by
  unfold to_size_t
  norm_num
  omega

/-- The inject requests of the switch on the command type, for an Injection command. -/
theorem receive_external_command_body_inject (K : XtierHeader) (C : Channel) (S : Session)
    (htype : S.external_command.type = INJECTION) :
    (receive_external_command_body K C S).2.filter Event.is_inject =
      (if C.injection_from_fd.code_len = 0 then []
        else [Event.ioctl_inject C.injection_from_fd]) ∧
    (C.injection_from_fd.code_len = 0 →
      Event.error Msg.injection_without_code ∈ (receive_external_command_body K C S).2) := by
  unfold receive_external_command_body
  simp only [htype, if_true]
  by_cases hlen : C.injection_from_fd.code_len = 0
  · simp only [hlen, if_true]
    constructor
    · cases S.injection <;> by_cases hos : S.os = K.XTIER_OS_UNKNOWN <;>
        simp [hos, List.filter, Event.is_inject]
    · intro _
      simp
  · simp only [hlen, if_false]
    constructor
    · cases S.injection <;> by_cases hos : S.os = K.XTIER_OS_UNKNOWN <;>
        by_cases hret : C.ioctl_inject < 0 <;>
        simp [hos, hret, List.filter, Event.is_inject]
    · intro h
      exact h.elim



/-- Once a validly framed Injection command has arrived and the declared redirect file
opens, `XTIER_command_receive_external_command` reaches the switch on the command type
with the received header in place; what precedes the switch issues no inject request. -/
theorem receive_external_command_reaches_body (K : XtierHeader) (C : Channel) (S : Session)
    (hframe : receives_framed_injection S C) (hfile : redirect_file_opens C) :
    ∃ (S' : Session) (log : List Event),
      S'.external_command.type = INJECTION ∧
      log.filter Event.is_inject = [] ∧
      (XTIER_command_receive_external_command K C S).2 =
        log ++ (receive_external_command_body K C S').2 := by
  obtain ⟨hfifo, hhead, htype, hred⟩ := hframe
  have hfd : 0 ≤ channel_fd S C := sys_read_full_fd _ _ _ hhead
  have hopen : ¬ (S.external_command_fd = 0 ∧ C.open_fd < 0) := by
    rintro ⟨h0, hneg⟩
    simp only [channel_fd, h0, if_true] at hfd
    omega
  have hn : to_int (sys_read (channel_fd S C) C.command_read
      sizeof_XTIER_external_command) = 12 := by
    rw [hhead]; decide
  have hm : to_int (to_size_t ((sizeof_XTIER_external_command : Int) - to_size_t 12)) = 0 := by
    decide
  have hpre : ∀ fd : Int, ((if S.external_command_fd = 0 then [Event.mkfifo, Event.open_pipe]
      else []) ++ [Event.read fd sizeof_XTIER_external_command]).filter Event.is_inject
        = [] := by
    intro fd
    by_cases h0 : S.external_command_fd = 0 <;> simp [h0, List.filter, Event.is_inject]
  unfold XTIER_command_receive_external_command
  simp only [hfifo, hopen, if_false]
  simp only [channel_fd] at hn hred
  simp only [hn, hm]
  by_cases hnone : C.command.redirect = NONE
  · refine ⟨{ S with external_command_fd := channel_fd S C, external_command := C.command },
      (if S.external_command_fd = 0 then [Event.mkfifo, Event.open_pipe] else [])
        ++ [Event.read (channel_fd S C) sizeof_XTIER_external_command], htype, hpre _, ?_⟩
    simp [hnone, channel_fd]
  · have hr : sys_read (if S.external_command_fd = 0 then C.open_fd
        else S.external_command_fd) C.redirect_read 2064 = 2064 := by
      simpa [sizeof_XTIER_external_command_redirect] using hred hnone
    have hfile' := hfile hnone
    by_cases hpipe : C.redirect.type = PIPE
    · obtain ⟨h, hh⟩ := Option.ne_none_iff_exists'.mp (hfile' hpipe)
      refine ⟨{ S with
          external_command_fd := channel_fd S C, external_command := C.command,
          external_command_redirect := { C.redirect with stream := some h } },
        ((if S.external_command_fd = 0 then [Event.mkfifo, Event.open_pipe] else [])
          ++ [Event.read (channel_fd S C) sizeof_XTIER_external_command])
          ++ [Event.read (channel_fd S C) sizeof_XTIER_external_command_redirect,
            Event.fopen C.redirect.filename, Event.fprintf h K.XTIER_EXTERNAL_OUTPUT_BEGIN],
        htype, ?_, ?_⟩
      · rw [List.filter_append, hpre]
        rfl
      · simp [hnone, hr, to_size_t, sizeof_XTIER_external_command_redirect, hpipe, hh,
          channel_fd]
    · refine ⟨{ S with
          external_command_fd := channel_fd S C, external_command := C.command,
          external_command_redirect := { C.redirect with stream := none } },
        ((if S.external_command_fd = 0 then [Event.mkfifo, Event.open_pipe] else [])
          ++ [Event.read (channel_fd S C) sizeof_XTIER_external_command])
          ++ [Event.read (channel_fd S C) sizeof_XTIER_external_command_redirect],
        htype, ?_, ?_⟩
      · rw [List.filter_append, hpre]
        rfl
      · simp [hnone, hr, to_size_t, sizeof_XTIER_external_command_redirect, hpipe,
          channel_fd]

/-- C7, the claim as stated fails: a validly framed Injection command with `code_len = 16`
that declares a Pipe redirect whose file cannot be opened is received, and
`XTIER_command_receive_external_command` stops after the failed `fopen`: it never parses
the injection and issues no inject request. -/
theorem receive_external_command_unwritable_redirect :
    receives_framed_injection initial_session unwritable_redirect_channel ∧
    0 < unwritable_redirect_channel.injection_from_fd.code_len ∧
    (XTIER_command_receive_external_command sample_header unwritable_redirect_channel
        initial_session).2 =
      [Event.mkfifo, Event.open_pipe, Event.read 5 12, Event.read 5 2064,
        Event.fopen "/nonexistent/out", Event.error Msg.could_not_open_file] := by
  refine ⟨?_, by decide, by decide⟩
  unfold receives_framed_injection
  decide

/-- C7 (amended): for every validly framed Injection command received by
`XTIER_command_receive_external_command` whose declared Pipe redirect file, if any, can be
opened, exactly one inject request is issued to the platform, carrying the parsed
injection, when its `code_len` is greater than 0; when `code_len` is 0 no inject request
is issued and the error "injection doesn't have code" is reported. -/
theorem receive_external_command_inject_requests (K : XtierHeader) (C : Channel)
    (S : Session) (hframe : receives_framed_injection S C) (hfile : redirect_file_opens C) :
    (0 < C.injection_from_fd.code_len →
      (XTIER_command_receive_external_command K C S).2.filter Event.is_inject =
        [Event.ioctl_inject C.injection_from_fd]) ∧
    (C.injection_from_fd.code_len = 0 →
      (XTIER_command_receive_external_command K C S).2.filter Event.is_inject = [] ∧
      Event.error Msg.injection_without_code ∈
        (XTIER_command_receive_external_command K C S).2) := by
  obtain ⟨S', log, htype, hlog, hrun⟩ := receive_external_command_reaches_body K C S hframe hfile
  obtain ⟨hbody, herr⟩ := receive_external_command_body_inject K C S' htype
  rw [hrun, List.filter_append, hlog, hbody]
  constructor
  · intro hpos
    have : C.injection_from_fd.code_len ≠ 0 := by omega
    simp [this]
  · intro hzero
    refine ⟨by simp [hzero], ?_⟩
    exact List.mem_append_right _ (herr hzero)

/-- C7 (amended), at a concrete input: a command without redirect for a module of 16 code
bytes, arriving on a freshly opened control pipe. -/
theorem receive_external_command_inject_requests_witness :
    (XTIER_command_receive_external_command sample_header sample_channel
        initial_session).2.filter Event.is_inject =
      [Event.ioctl_inject { name := "module", code_len := 16, argc := 0, args_size := 0 }] :=
  (receive_external_command_inject_requests sample_header sample_channel initial_session
    (by unfold receives_framed_injection; decide)
    (by unfold redirect_file_opens; decide)).1 (by decide)

/-- C8: if the read of the command header returns a byte count other than the size of the
record, or the header declares a redirect and the read of the redirect descriptor returns
a byte count other than the size of that record,
`XTIER_command_receive_external_command` aborts: it issues no inject request and no
set-profile request, and leaves the guest-OS profile and the current injection descriptor
unchanged. -/
theorem receive_external_command_short_read (K : XtierHeader) (C : Channel) (S : Session)
    (hshort :
      sys_read (channel_fd S C) C.command_read sizeof_XTIER_external_command ≠
          (sizeof_XTIER_external_command : Int) ∨
      (C.command.redirect ≠ NONE ∧
        sys_read (channel_fd S C) C.redirect_read sizeof_XTIER_external_command_redirect ≠
          (sizeof_XTIER_external_command_redirect : Int))) :
    (XTIER_command_receive_external_command K C S).2.filter Event.is_inject = [] ∧
    (XTIER_command_receive_external_command K C S).2.filter Event.is_set_state = [] ∧
    (XTIER_command_receive_external_command K C S).1.os = S.os ∧
    (XTIER_command_receive_external_command K C S).1.injection = S.injection := by
  unfold XTIER_command_receive_external_command
  by_cases hfifo : S.external_command_fd = 0 ∧ C.mkfifo = MkfifoResult.failed
  · simp [hfifo, List.filter, Event.is_inject, Event.is_set_state]
  by_cases hopen : S.external_command_fd = 0 ∧ C.open_fd < 0
  · have hmk : C.mkfifo ≠ MkfifoResult.failed := fun h => hfifo ⟨hopen.1, h⟩
    simp [hopen.1, hopen.2, hmk, List.filter, Event.is_inject, Event.is_set_state]
  simp only [hfifo, hopen, if_false]
  have hrange := sys_read_range (channel_fd S C) C.command_read sizeof_XTIER_external_command
  have hrange2 := sys_read_range (channel_fd S C) C.redirect_read
    sizeof_XTIER_external_command_redirect
  simp only [channel_fd, sizeof_XTIER_external_command,
    sizeof_XTIER_external_command_redirect, Nat.cast_ofNat] at hrange hrange2 hshort
  simp only [sizeof_XTIER_external_command, sizeof_XTIER_external_command_redirect,
    Nat.cast_ofNat]
  generalize (if S.external_command_fd = 0 then C.open_fd else S.external_command_fd) = fd
    at hrange hrange2 hshort ⊢
  by_cases hhead : sys_read fd C.command_read 12 = 12
  · have hred : C.command.redirect ≠ NONE ∧ sys_read fd C.redirect_read 2064 ≠ 2064 := by
      rcases hshort with h | h
      · exact absurd hhead h
      · exact h
    have hsz : ¬ to_size_t (sys_read fd C.redirect_read 2064) = 2064 := by
      rw [redirect_size_check _ hrange2.1 hrange2.2]
      exact hred.2
    have hm : to_int (to_size_t (12 - to_size_t 12)) = 0 := by decide
    have h12 : to_int 12 = 12 := by decide
    simp only [hhead, h12, hm]
    by_cases h0 : S.external_command_fd = 0 <;>
      simp [h0, hred.1, hsz, List.filter, Event.is_inject, Event.is_set_state]
  · have hm : ¬ to_int (to_size_t (12 - to_size_t (to_int
        (sys_read fd C.command_read 12)))) = 0 := by
      rw [header_size_check _ hrange.1 hrange.2]
      exact hhead
    by_cases h0 : S.external_command_fd = 0 <;>
      simp [h0, hm, List.filter, Event.is_inject, Event.is_set_state]

/-- C8 at a concrete input: the header read delivers 8 of 12 bytes. -/
theorem receive_external_command_short_read_witness :
    (XTIER_command_receive_external_command sample_header short_header_channel
        initial_session).2.filter Event.is_inject = [] ∧
    (XTIER_command_receive_external_command sample_header short_header_channel
        initial_session).2.filter Event.is_set_state = [] ∧
    (XTIER_command_receive_external_command sample_header short_header_channel
        initial_session).1.os = 0 ∧
    (XTIER_command_receive_external_command sample_header short_header_channel
        initial_session).1.injection = none :=
  receive_external_command_short_read sample_header short_header_channel initial_session
    (Or.inl (by decide))

/-! ## Console question flow -/

theorem handle_input_command_loop_no_command (S : Session) (tokens : List (List Char))
    (hfirst : ∀ tok, tokens.head? = some tok → _find_command S tok = none) :
    handle_input_command_loop S tokens 0 = (S, 0) := by
  cases tokens with
  | nil => rfl
  | cons tok rest =>
    have h := hfirst tok rfl
    simp [handle_input_command_loop, h]

/-- What `List.find?` returns is the first element that satisfies the test. -/
theorem find_first_decomposes {α : Type} (p : α → Bool) :
    ∀ (l : List α) (a : α), l.find? p = some a →
      ∃ before after, l = before ++ a :: after ∧ (∀ c ∈ before, p c = false) ∧
        p a = true := by
  intro l
  induction l with
  | nil =>
    intro a h
    simp at h
  | cons x xs ih =>
    intro a h
    by_cases hx : p x = true
    · have hax : x = a := by simpa [List.find?, hx] using h
      subst hax
      exact ⟨[], xs, rfl, by simp, hx⟩
    · have hrest : xs.find? p = some a := by simpa [List.find?, hx] using h
      obtain ⟨before, after, hl, hnone, ha⟩ := ih a hrest
      refine ⟨x :: before, after, by rw [hl]; rfl, ?_, ha⟩
      intro c hc
      rcases List.mem_cons.mp hc with rfl | hc
      · simpa using hx
      · exact hnone c hc

/-- `List.find?` returns the first element that satisfies the test. -/
theorem find_first_of_decomposition {α : Type} (p : α → Bool) (a : α) (after : List α) :
    ∀ (before : List α), (∀ c ∈ before, p c = false) → p a = true →
      (before ++ a :: after).find? p = some a := by
  intro before
  induction before with
  | nil =>
    intro _ ha
    simp [List.find?, ha]
  | cons x xs ih =>
    intro hnone ha
    have hx : p x = false := hnone x (List.mem_cons_self _ _)
    have hrest := ih (fun c hc => hnone c (List.mem_cons_of_mem _ hc)) ha
    simpa [List.find?, hx] using hrest

/-- `_find_choice` returns the first choice of the question that has the number looked
for. -/
theorem find_choice_first (q : XTIER_question) (v : Int) (before : List XTIER_choice)
    (ch : XTIER_choice) (after : List XTIER_choice)
    (hchoices : q.choices = some (before ++ ch :: after))
    (hbefore : ∀ c ∈ before, c.choice ≠ v) (hch : ch.choice = v) :
    _find_choice q v = some ch := by
  unfold _find_choice
  rw [hchoices]
  exact find_first_of_decomposition _ ch after before
    (fun c hc => by simpa using hbefore c hc) (by simpa using hch)

/-- A choice that `_find_choice` returns is the first choice of the question that has
the number looked for. -/
theorem find_choice_decomposes (q : XTIER_question) (v : Int) (ch : XTIER_choice)
    (hfound : _find_choice q v = some ch) :
    ∃ before after, q.choices = some (before ++ ch :: after) ∧
      (∀ c ∈ before, c.choice ≠ v) ∧ ch.choice = v := by
  unfold _find_choice at hfound
  cases hchoices : q.choices with
  | none => simp [hchoices] at hfound
  | some l =>
    rw [hchoices] at hfound
    obtain ⟨before, after, hl, hnone, hch⟩ := find_first_decomposes _ l ch hfound
    refine ⟨before, after, by rw [hl], ?_, by simpa using hch⟩
    intro c hc
    simpa using hnone c hc

/-- In question mode the line is none of `cont`, `quit`, `exit`, which name commands: the
prompt is printed. -/
theorem handle_input_prompt_in_question_mode (S : Session) (cmdline : List Char)
    (hidle : S.current_command = none)
    (hfirst : ∀ tok, (strtok_tokens cmdline []).head? = some tok →
      _find_command S tok = none) :
    handle_input_prompt cmdline = [Event.prompt] := by
  have hcommand : ∀ name : List Char,
      name = "cont".toList ∨ name = "quit".toList ∨ name = "exit".toList →
      (strtok_tokens name []).head? = some name ∧
        (_find_command S name).isSome = true := by
    intro name hname
    unfold _find_command
    rw [hidle]
    rcases hname with rfl | rfl | rfl <;> exact ⟨by decide, by decide⟩
  have hnot : ∀ name : List Char,
      name = "cont".toList ∨ name = "quit".toList ∨ name = "exit".toList →
      cmdline ≠ name := by
    intro name hname heq
    subst heq
    have hfound := (hcommand _ hname).2
    rw [hfirst _ (hcommand _ hname).1] at hfound
    exact Bool.noConfusion hfound
  unfold handle_input_prompt
  rw [if_pos ⟨hnot _ (Or.inl rfl), hnot _ (Or.inr (Or.inl rfl)), hnot _ (Or.inr (Or.inr rfl))⟩]

/-- C9, the claim as stated fails, at four inputs in question mode with a question that
has the choices 1 (no sub-question) and 2 (a sub-question).  (1) The callback accepts
the answer "1" while a return destination is pending: the return destination is cleared
and the question stays current.  (2) The callback rejects the answer "2": the current
question is cleared, the sub-question does not become current.  (3) The sub-question of
choice 2 has the id `5`: it becomes current, and a warning is printed, not a question.
(4) The answer has 16 characters, for which the compiler sets aside 16 bytes: the copy
of the line writes its terminating zero beyond the array, the behaviour is undefined. -/
theorem handle_input_question_mode_deviations :
    (XTIER_handle_input sample_header sample_compiler sample_channel
        { questioned_session with return_to := some CommandCallback.XTIER_print_help }
        "1".toList).map
        (fun r => (r.1.current_question.map XTIER_question.id, r.1.return_to, r.2)) =
      some (some 8, none, [Event.question_callback 8 "1".toList, Event.prompt]) ∧
    (XTIER_handle_input sample_header sample_compiler sample_channel
        { questioned_session with current_question := some rejecting_question }
        "2".toList).map
        (fun r => (r.1.current_question.map XTIER_question.id, r.2)) =
      some (none, [Event.question_callback 8 "2".toList, Event.prompt]) ∧
    (XTIER_handle_input sample_header sample_compiler sample_channel
        { questioned_session with
          current_question := some question_with_unlisted_sub_question }
        "2".toList).map
        (fun r => (r.1.current_question.map XTIER_question.id, r.2)) =
      some (some 5, [Event.question_callback 8 "2".toList,
        Event.warning Msg.unknown_question_id, Event.prompt]) ∧
    ("0123456789abcdef".toList.length = 16 ∧ sample_compiler.array_storage 16 = 16 ∧
      (XTIER_handle_input sample_header sample_compiler sample_channel questioned_session
        "0123456789abcdef".toList).isSome = false) := by
  decide

/-- C9 (amended): in question mode (no command is current, a question `q` is current,
the first token of the input names no command) and for an input line that fits, with
its terminating zero, the storage of the line copy, `XTIER_handle_input` calls the
callback of `q` on the raw input, prints the prompt at the end, and returns.  When the
callback returns a negative status the current question is cleared.  When it returns a
non-negative status: if the first choice of `q` whose number is the integer value of the
input has a sub-question `Q`, the current question becomes `Q`, and the text of `Q` is
printed when the id of `Q` is one of the four known ids, a warning otherwise; if there
is no such choice or it has no sub-question, then a pending return destination is
cleared and the question stays, and without a pending return destination the current
question is cleared.  Nothing else of the session changes.  In particular, for a
question with the choices 1 (no sub-question) and 2 (sub-question `Q2`), input "2" makes
`Q2` current when the callback accepts it, and input "1" clears the current question
when the callback rejects it or no return destination is pending. -/
theorem handle_input_question_mode (K : XtierHeader) (T : Compiler) (C : Channel)
    (S : Session) (q : XTIER_question) (cmdline : List Char)
    (hfits : copy_fits T cmdline)
    (hidle : S.current_command = none) (hq : S.current_question = some q)
    (hfirst : ∀ tok, (strtok_tokens cmdline []).head? = some tok →
      _find_command S tok = none) :
    (q.callback cmdline < 0 →
      XTIER_handle_input K T C S cmdline =
        some ({ S with current_question := none },
          [Event.question_callback q.id cmdline, Event.prompt])) ∧
    (0 ≤ q.callback cmdline →
      (∀ before ch after Q, q.choices = some (before ++ ch :: after) →
        (∀ c ∈ before, c.choice ≠ atoi cmdline) → ch.choice = atoi cmdline →
        ch.sub_question = some Q →
        (known_question_id Q.id →
          XTIER_handle_input K T C S cmdline =
            some ({ S with current_question := some Q },
              [Event.question_callback q.id cmdline, Event.ask_question Q.id,
                Event.prompt])) ∧
        (¬ known_question_id Q.id →
          XTIER_handle_input K T C S cmdline =
            some ({ S with current_question := some Q },
              [Event.question_callback q.id cmdline,
                Event.warning Msg.unknown_question_id, Event.prompt]))) ∧
      ((∀ before ch after, q.choices = some (before ++ ch :: after) →
          (∀ c ∈ before, c.choice ≠ atoi cmdline) → ch.choice = atoi cmdline →
          ch.sub_question = none) →
        (S.return_to ≠ none →
          XTIER_handle_input K T C S cmdline =
            some ({ S with return_to := none },
              [Event.question_callback q.id cmdline, Event.prompt])) ∧
        (S.return_to = none →
          XTIER_handle_input K T C S cmdline =
            some ({ S with current_question := none },
              [Event.question_callback q.id cmdline, Event.prompt])))) ∧
    (∀ id cb d1 d2 Q2,
      q = XTIER_question.mk id cb
        (some [XTIER_choice.mk 1 d1 none, XTIER_choice.mk 2 d2 (some Q2)]) →
      (cmdline = "2".toList → 0 ≤ cb "2".toList →
        (XTIER_handle_input K T C S cmdline).map Prod.fst =
          some { S with current_question := some Q2 }) ∧
      (cmdline = "1".toList → cb "1".toList < 0 ∨ S.return_to = none →
        (XTIER_handle_input K T C S cmdline).map Prod.fst =
          some { S with current_question := none })) := by
  have hloop := handle_input_command_loop_no_command S (strtok_tokens cmdline []) hfirst
  have hprompt := handle_input_prompt_in_question_mode S cmdline hidle hfirst
  have hcopy : strcpy_to_array T cmdline = some cmdline := by
    unfold copy_fits at hfits
    simp [strcpy_to_array, hfits]
  have hneg : q.callback cmdline < 0 →
      XTIER_handle_input K T C S cmdline =
        some ({ S with current_question := none },
          [Event.question_callback q.id cmdline, Event.prompt]) := by
    intro hret
    simp [XTIER_handle_input, hcopy, hloop, hidle, hq, hret, hprompt]
  have hsub : 0 ≤ q.callback cmdline → ∀ ch Q, _find_choice q (atoi cmdline) = some ch →
      ch.sub_question = some Q →
      XTIER_handle_input K T C S cmdline =
        some ({ S with current_question := some Q },
          [Event.question_callback q.id cmdline]
            ++ XTIER_ask_current_question { S with current_question := some Q }
            ++ [Event.prompt]) := by
    intro hret ch Q hch hQ
    have hnot : ¬ q.callback cmdline < 0 := by omega
    simp [XTIER_handle_input, hcopy, hloop, hidle, hq, hnot, hch, hQ, hprompt]
  have hnosub : 0 ≤ q.callback cmdline →
      (∀ ch, _find_choice q (atoi cmdline) = some ch → ch.sub_question = none) →
        (S.return_to ≠ none →
          XTIER_handle_input K T C S cmdline =
            some ({ S with return_to := none },
              [Event.question_callback q.id cmdline, Event.prompt])) ∧
        (S.return_to = none →
          XTIER_handle_input K T C S cmdline =
            some ({ S with current_question := none },
              [Event.question_callback q.id cmdline, Event.prompt])) := by
    intro hret hno
    have hnot : ¬ q.callback cmdline < 0 := by omega
    have hbind : (_find_choice q (atoi cmdline)).bind XTIER_choice.sub_question = none := by
      cases hfind : _find_choice q (atoi cmdline) with
      | none => rfl
      | some ch => simpa using hno ch hfind
    constructor
    · intro hret_to
      obtain ⟨cb, hcb⟩ := Option.ne_none_iff_exists'.mp hret_to
      simp [XTIER_handle_input, hcopy, hloop, hidle, hq, hnot, hbind, hcb, hprompt]
    · intro hret_to
      simp [XTIER_handle_input, hcopy, hloop, hidle, hq, hnot, hbind, hret_to, hprompt]
  refine ⟨hneg, fun hret => ⟨?_, ?_⟩, ?_⟩
  · intro before ch after Q hchoices hbefore hch hQ
    have hrun := hsub hret ch Q (find_choice_first q _ before ch after hchoices hbefore hch) hQ
    constructor
    · intro hknown
      unfold known_question_id at hknown
      rw [hrun]
      simp [XTIER_ask_current_question, hknown]
    · intro hunknown
      unfold known_question_id at hunknown
      rw [hrun]
      simp [XTIER_ask_current_question, hunknown]
  · intro hno
    refine hnosub hret ?_
    intro ch hfound
    obtain ⟨before, after, hchoices, hbefore, hch⟩ := find_choice_decomposes q _ ch hfound
    exact hno before ch after hchoices hbefore hch
  · intro id cb d1 d2 Q2 hshape
    have hcb : q.callback = cb := by rw [hshape]; rfl
    constructor
    · intro hline hret
      have hret' : 0 ≤ q.callback cmdline := by rw [hcb, hline]; exact hret
      have hfound : _find_choice q (atoi cmdline) = some (XTIER_choice.mk 2 d2 (some Q2)) := by
        have hval : atoi "2".toList = 2 := by decide
        rw [hshape, hline, hval]
        simp [_find_choice, XTIER_question.choices, XTIER_choice.choice]
      rw [hsub hret' _ Q2 hfound rfl]
      rfl
    · intro hline hcase
      by_cases hret : q.callback cmdline < 0
      · rw [hneg hret]
        rfl
      · have hret_to : S.return_to = none := by
          rcases hcase with h | h
          · rw [hcb, hline] at hret
            exact absurd h hret
          · exact h
        have hno : ∀ ch, _find_choice q (atoi cmdline) = some ch → ch.sub_question = none := by
          intro ch hch
          have hval : atoi "1".toList = 1 := by decide
          rw [hshape, hline, hval] at hch
          have hfirst_choice : _find_choice (XTIER_question.mk id cb
              (some [XTIER_choice.mk 1 d1 none, XTIER_choice.mk 2 d2 (some Q2)])) 1
              = some (XTIER_choice.mk 1 d1 none) := by
            simp [_find_choice, XTIER_question.choices, XTIER_choice.choice]
          rw [hfirst_choice] at hch
          rw [← Option.some.inj hch]
          rfl
        rw [(hnosub (by omega) hno).2 hret_to]
        rfl

/-- C9 (amended), at a concrete input: the sample question is current and the operator
enters "2"; the sub-question with the id `9` becomes current and is asked. -/
theorem handle_input_question_mode_witness :
    XTIER_handle_input sample_header sample_compiler sample_channel questioned_session
        "2".toList =
      some ({ questioned_session with current_question := some sample_sub_question },
        [Event.question_callback 8 "2".toList, Event.ask_question 9, Event.prompt]) :=
  ((handle_input_question_mode sample_header sample_compiler sample_channel
      questioned_session sample_question "2".toList
      (by unfold copy_fits; decide) rfl rfl
      (by
        intro tok htok
        have : tok = "2".toList := by
          simpa [strtok_tokens] using htok.symm
        subst this
        rfl)).2.1 (by decide)).1
    [XTIER_choice.mk 1 "terminal".toList none]
    (XTIER_choice.mk 2 "continue".toList (some sample_sub_question)) []
    sample_sub_question rfl (by decide) (by decide) rfl |>.1
    (by unfold known_question_id; decide)

/-! ## Print hypercall with an untranslatable stack pointer -/

/-- Under the Linux-64 profile, when the stack pointer has no mapping, the record that
`XTIER_inject_handle_printk` hands to the event dispatch and to the host `printf` has
the translations of the guest argument registers in its six argument slots and, in its
five stack slots, what the uninitialised local `call_regs` held. -/
theorem handle_printk_untranslated_stack (K : XtierHeader) (P : Platform) (regs : kvm_regs)
    (hstack : P.gva_to_hva regs.rsp = HVA_INVALID) :
    ∃ log,
      XTIER_inject_handle_printk K K.XTIER_OS_LINUX_64 P regs =
        log ++ Event.print_dispatch
            { P.uninitialised_call_regs with
              rdi := translate P regs.rdi, rsi := translate P regs.rsi,
              rdx := translate P regs.rdx, rcx := translate P regs.rcx,
              r8 := translate P regs.r8, r9 := translate P regs.r9 } ::
          (if P.print_dispatch regs
              { P.uninitialised_call_regs with
                rdi := translate P regs.rdi, rsi := translate P regs.rsi,
                rdx := translate P regs.rdx, rcx := translate P regs.rcx,
                r8 := translate P regs.r8, r9 := translate P regs.r9 } then []
            else [Event.host_printf
              { P.uninitialised_call_regs with
                rdi := translate P regs.rdi, rsi := translate P regs.rsi,
                rdx := translate P regs.rdx, rcx := translate P regs.rcx,
                r8 := translate P regs.r8, r9 := translate P regs.r9 }]) := by
  have hesp : (XTIER_inject_transform_call_register P regs.rsp).1 = regs.rsp := by
    simp [XTIER_inject_transform_call_register, hstack]
  refine ⟨(XTIER_inject_transform_call_registers64 P regs P.uninitialised_call_regs).2, ?_⟩
  have hrec : (XTIER_inject_transform_call_registers64 P regs P.uninitialised_call_regs).1 =
      { P.uninitialised_call_regs with
        rdi := translate P regs.rdi, rsi := translate P regs.rsi,
        rdx := translate P regs.rdx, rcx := translate P regs.rcx,
        r8 := translate P regs.r8, r9 := translate P regs.r9 } := by
    simp [XTIER_inject_transform_call_registers64, hesp, translate]
  unfold XTIER_inject_handle_printk
  simp only [if_true, hrec]
  split <;> simp

/-- C11, the code at a failing input: a Print hypercall under the Linux-64 profile whose
stack pointer `64` has no mapping, while the stack area of the local `call_regs` holds
left-over values.  The record handed to the event dispatch and to the host `printf` has
the translation `8192` of the guest `rdi = 4096` in its first argument slot, and in its
stack slots `esp0..esp4` the left-over values, not zero. -/
theorem handle_printk_stale_stack_slots :
    stale_stack_platform.kvm_get_regs.rax = sample_header.XTIER_HYPERCALL_PRINT ∧
    stale_stack_platform.gva_to_hva stale_stack_platform.kvm_get_regs.rsp = HVA_INVALID ∧
    XTIER_inject_handle_interrupt sample_header sample_header.XTIER_OS_LINUX_64
        stale_stack_platform none =
      some (none,
        [Event.ioctl_get_regs, Event.gva_to_hva 4096, Event.gva_to_hva 0,
          Event.gva_to_hva 0, Event.gva_to_hva 0, Event.gva_to_hva 0, Event.gva_to_hva 0,
          Event.gva_to_hva 64, Event.warning Msg.could_not_convert_esp,
          Event.print_dispatch
            { esp0 := 57005, esp1 := 48879, esp2 := 51966, esp3 := 47806, esp4 := 61453,
              rdi := 8192, rsi := 0, rdx := 0, rcx := 0, r8 := 0, r9 := 0 },
          Event.host_printf
            { esp0 := 57005, esp1 := 48879, esp2 := 51966, esp3 := 47806, esp4 := 61453,
              rdi := 8192, rsi := 0, rdx := 0, rcx := 0, r8 := 0, r9 := 0 }]) := by
  decide

/-! ## Redirect target after an injection that ends in error -/

/-- C12, the code at two failing inputs, both with a Pipe redirect open on stream `7`:
after an injection-fault exit, and after an injection-finished exit whose get-state
request fails, the redirect target is still of kind Pipe with stream `7` open, and the
log of the exit holds no `fclose`. -/
theorem handle_exit_error_keeps_redirect_open :
    redirected_session.external_command_redirect = pipe_target "out" (some 7) ∧
    (XTIER_handle_exit sample_header sample_platform sample_driver redirected_session
        sample_header.XTIER_EXIT_REASON_INJECT_FAULT).map
        (fun r => (r.1.external_command_redirect, r.2)) =
      some (pipe_target "out" (some 7),
        [Event.error Msg.injection_fault, Event.cpu_synchronize_state,
          Event.switching_message, Event.vm_stop, Event.start_getting_user_input,
          Event.prompt]) ∧
    (XTIER_handle_exit sample_header sample_platform failing_driver redirected_session
        sample_header.XTIER_EXIT_REASON_INJECT_FINISHED).map
        (fun r => (r.1.external_command_redirect, r.2)) =
      some (pipe_target "out" (some 7),
        [Event.ioctl_get_performance, Event.statistics "module",
          Event.ioctl_get_state, Event.error Msg.state_unavailable,
          Event.switching_message, Event.vm_stop, Event.start_getting_user_input,
          Event.prompt]) := by
  decide

/-! ## Control pipe after a failed open -/

/-- C14, the code at a failing input: the first `external` command fails to open the
control pipe (`open` returns `-1`), which leaves `-1` in `_external_command_fd`.  On the
next `external` command, with a pipe that would open and a valid Injection frame of 16
code bytes waiting, the function neither creates nor opens the pipe: it reads from
descriptor `-1`, reports a wrong size and issues no inject request. -/
theorem receive_external_command_after_failed_open :
    (XTIER_command_receive_external_command sample_header unopenable_channel
        initial_session).2 =
      [Event.mkfifo, Event.open_pipe, Event.error Msg.could_not_open_named_pipe] ∧
    (XTIER_command_receive_external_command sample_header unopenable_channel
        initial_session).1.external_command_fd = -1 ∧
    sample_channel.open_fd = 5 ∧ sample_channel.command_read = some 12 ∧
    sample_channel.command.type = INJECTION ∧
    sample_channel.injection_from_fd.code_len = 16 ∧
    (XTIER_command_receive_external_command sample_header sample_channel
        (XTIER_command_receive_external_command sample_header unopenable_channel
          initial_session).1).2 =
      [Event.read (-1) 12, Event.error Msg.wrong_size_command_struct] := by
  decide

/-! ## Argument handed to a command callback -/

/-- C17, the code at two failing inputs.  On the line `help` (4 characters) the callback
is invoked with the pointer `cmdline + 5`, beyond the terminating zero of the line.  On
the line `  help x`, with two leading blanks, it is invoked with `cmdline + 5`, the
text `p x`, which starts with the last character of the matched token. -/
theorem handle_input_callback_offset :
    "help".toList.length = 4 ∧
    (XTIER_handle_input sample_header sample_compiler sample_channel initial_session
        "help".toList).map Prod.snd =
      some [Event.command_callback CommandCallback.XTIER_print_help 5 [], Event.help,
        Event.prompt] ∧
    strtok_tokens "  help x".toList [] = ["help".toList, "x".toList] ∧
    (XTIER_handle_input sample_header sample_compiler sample_channel initial_session
        "  help x".toList).map Prod.snd =
      some [Event.command_callback CommandCallback.XTIER_print_help 5 "p x".toList,
        Event.help, Event.prompt] := by
  decide

/-! ## Time conversion -/

/-- C19: for every nanosecond count `n` (a `size_t`, below `2 ^ 64`) and every record
passed by a non-null pointer, `XTIER_ns_to_time` produces fields `sec`, `ms`, `ns` with
`sec * 1000000000 + ms * 1000000 + ns = n`, `ms < 1000` and `ns < 1000000`. -/
theorem ns_to_time_decomposes (n : Nat) (t : XTIER_time) (hn : n < 2 ^ 64) :
    ∃ r, XTIER_ns_to_time n (some t) = some r ∧
      r.sec * 1000000000 + r.ms * 1000000 + r.ns = n ∧ r.ms < 1000 ∧ r.ns < 1000000 := by
  have hsub : (n + WORD64 - (n / NSEC_PER_SEC * NSEC_PER_SEC) % WORD64) % WORD64 =
      n % NSEC_PER_SEC := by
    unfold WORD64 NSEC_PER_SEC
    omega
  refine ⟨_, rfl, ?_, ?_, ?_⟩
  · simp only [hsub]
    unfold NSEC_PER_SEC NSEC_PER_MSEC
    omega
  · simp only [hsub]
    unfold NSEC_PER_SEC NSEC_PER_MSEC
    omega
  · simp only [hsub]
    unfold NSEC_PER_SEC NSEC_PER_MSEC
    omega

/-- C19 at a concrete input: 3 723 456 789 ns are 3 s, 723 ms and 456 789 ns. -/
theorem ns_to_time_decomposes_witness :
    ∃ r, XTIER_ns_to_time 3723456789 (some { sec := 0, ms := 0, ns := 0 }) = some r ∧
      r.sec * 1000000000 + r.ms * 1000000 + r.ns = 3723456789 ∧
      r.ms < 1000 ∧ r.ns < 1000000 :=
  ns_to_time_decomposes 3723456789 { sec := 0, ms := 0, ns := 0 } (by decide)

/-! ## Default guest-OS profile -/

/-- The profile and the set-profile requests of the switch on the command type. -/
theorem receive_external_command_body_profile (K : XtierHeader) (C : Channel) (S : Session)
    (htype : S.external_command.type = INJECTION) :
    (receive_external_command_body K C S).1.os =
      (if S.os = K.XTIER_OS_UNKNOWN then K.XTIER_OS_LINUX_64 else S.os) ∧
    (receive_external_command_body K C S).2.filter Event.is_set_state =
      (if S.os = K.XTIER_OS_UNKNOWN then [Event.ioctl_set_xtier_state K.XTIER_OS_LINUX_64]
        else []) := by
  unfold receive_external_command_body
  simp only [htype, if_true]
  by_cases hlen : C.injection_from_fd.code_len = 0 <;>
    by_cases hos : S.os = K.XTIER_OS_UNKNOWN <;>
    by_cases hret : C.ioctl_inject < 0 <;>
    cases S.injection <;>
    simp [hlen, hos, hret, List.filter, Event.is_set_state]

/-- A session with a configured profile keeps it through the switch on the command type,
which then sends no set-profile request. -/
theorem receive_external_command_body_configured (K : XtierHeader) (C : Channel)
    (S : Session) (hos : S.os ≠ K.XTIER_OS_UNKNOWN) :
    (receive_external_command_body K C S).1.os = S.os ∧
    (receive_external_command_body K C S).2.filter Event.is_set_state = [] := by
  unfold receive_external_command_body
  by_cases htype : S.external_command.type = INJECTION <;>
    by_cases hlen : C.injection_from_fd.code_len = 0 <;>
    by_cases hret : C.ioctl_inject < 0 <;>
    cases S.injection <;>
    simp [htype, hlen, hos, hret, List.filter, Event.is_set_state]

/-- With a configured profile, `XTIER_command_receive_external_command` keeps the
profile and sends no set-profile request, whatever arrives on the channel. -/
theorem receive_external_command_configured (K : XtierHeader) (C : Channel) (S : Session)
    (hos : S.os ≠ K.XTIER_OS_UNKNOWN) :
    (XTIER_command_receive_external_command K C S).1.os = S.os ∧
    (XTIER_command_receive_external_command K C S).2.filter Event.is_set_state = [] := by
  unfold XTIER_command_receive_external_command
  by_cases hfifo : S.external_command_fd = 0 ∧ C.mkfifo = MkfifoResult.failed
  · simp [hfifo, List.filter, Event.is_set_state]
  by_cases hopen : S.external_command_fd = 0 ∧ C.open_fd < 0
  · have hmk : C.mkfifo ≠ MkfifoResult.failed := fun h => hfifo ⟨hopen.1, h⟩
    simp [hopen.1, hopen.2, hmk, List.filter, Event.is_set_state]
  simp only [hfifo, hopen, if_false]
  generalize (if S.external_command_fd = 0 then C.open_fd else S.external_command_fd) = fd
  have hb1 : ∀ S' : Session, S'.os = S.os →
      (receive_external_command_body K C S').1.os = S.os := by
    intro S' h
    rw [← h]
    exact (receive_external_command_body_configured K C S' (by rw [h]; exact hos)).1
  have hb2 : ∀ S' : Session, S'.os = S.os →
      (receive_external_command_body K C S').2.filter Event.is_set_state = [] := by
    intro S' h
    exact (receive_external_command_body_configured K C S' (by rw [h]; exact hos)).2
  split_ifs <;> (try split) <;> dsimp only <;>
    first
    | exact ⟨rfl, by simp [List.filter_append, List.filter, Event.is_set_state]⟩
    | (constructor
       · apply hb1
         rfl
       · rw [List.filter_append, hb2]
         · simp [List.filter_append, List.filter, Event.is_set_state]
         · rfl)

/-- Once a validly framed Injection command has arrived and the declared redirect file
opens, the session in which the switch on the command type runs has the profile of the
session at the call, and what precedes the switch sends no set-profile request. -/
theorem receive_external_command_reaches_body_profile (K : XtierHeader) (C : Channel)
    (S : Session) (hframe : receives_framed_injection S C) (hfile : redirect_file_opens C) :
    ∃ (S' : Session) (log : List Event),
      S'.external_command.type = INJECTION ∧ S'.os = S.os ∧
      log.filter Event.is_set_state = [] ∧
      (XTIER_command_receive_external_command K C S).1 =
        (receive_external_command_body K C S').1 ∧
      (XTIER_command_receive_external_command K C S).2 =
        log ++ (receive_external_command_body K C S').2 := by
  obtain ⟨hfifo, hhead, htype, hred⟩ := hframe
  have hfd : 0 ≤ channel_fd S C := sys_read_full_fd _ _ _ hhead
  have hopen : ¬ (S.external_command_fd = 0 ∧ C.open_fd < 0) := by
    rintro ⟨h0, hneg⟩
    simp only [channel_fd, h0, if_true] at hfd
    omega
  have hn : to_int (sys_read (channel_fd S C) C.command_read
      sizeof_XTIER_external_command) = 12 := by
    rw [hhead]; decide
  have hm : to_int (to_size_t ((sizeof_XTIER_external_command : Int) - to_size_t 12)) = 0 := by
    decide
  have hpre : ∀ fd : Int, ((if S.external_command_fd = 0 then [Event.mkfifo, Event.open_pipe]
      else []) ++ [Event.read fd sizeof_XTIER_external_command]).filter Event.is_set_state
        = [] := by
    intro fd
    by_cases h0 : S.external_command_fd = 0 <;> simp [h0, List.filter, Event.is_set_state]
  unfold XTIER_command_receive_external_command
  simp only [hfifo, hopen, if_false]
  simp only [channel_fd] at hn hred
  simp only [hn, hm]
  by_cases hnone : C.command.redirect = NONE
  · refine ⟨{ S with external_command_fd := channel_fd S C, external_command := C.command },
      (if S.external_command_fd = 0 then [Event.mkfifo, Event.open_pipe] else [])
        ++ [Event.read (channel_fd S C) sizeof_XTIER_external_command],
      htype, rfl, hpre _, ?_, ?_⟩ <;>
    simp [hnone, channel_fd]
  · have hr : sys_read (if S.external_command_fd = 0 then C.open_fd
        else S.external_command_fd) C.redirect_read 2064 = 2064 := by
      simpa [sizeof_XTIER_external_command_redirect] using hred hnone
    have hfile' := hfile hnone
    by_cases hpipe : C.redirect.type = PIPE
    · obtain ⟨h, hh⟩ := Option.ne_none_iff_exists'.mp (hfile' hpipe)
      refine ⟨{ S with
          external_command_fd := channel_fd S C, external_command := C.command,
          external_command_redirect := { C.redirect with stream := some h } },
        ((if S.external_command_fd = 0 then [Event.mkfifo, Event.open_pipe] else [])
          ++ [Event.read (channel_fd S C) sizeof_XTIER_external_command])
          ++ [Event.read (channel_fd S C) sizeof_XTIER_external_command_redirect,
            Event.fopen C.redirect.filename, Event.fprintf h K.XTIER_EXTERNAL_OUTPUT_BEGIN],
        htype, rfl, ?_, ?_, ?_⟩
      · rw [List.filter_append, hpre]
        rfl
      · simp [hnone, hr, to_size_t, sizeof_XTIER_external_command_redirect, hpipe, hh,
          channel_fd]
      · simp [hnone, hr, to_size_t, sizeof_XTIER_external_command_redirect, hpipe, hh,
          channel_fd]
    · refine ⟨{ S with
          external_command_fd := channel_fd S C, external_command := C.command,
          external_command_redirect := { C.redirect with stream := none } },
        ((if S.external_command_fd = 0 then [Event.mkfifo, Event.open_pipe] else [])
          ++ [Event.read (channel_fd S C) sizeof_XTIER_external_command])
          ++ [Event.read (channel_fd S C) sizeof_XTIER_external_command_redirect],
        htype, rfl, ?_, ?_, ?_⟩
      · rw [List.filter_append, hpre]
        rfl
      · simp [hnone, hr, to_size_t, sizeof_XTIER_external_command_redirect, hpipe,
          channel_fd]
      · simp [hnone, hr, to_size_t, sizeof_XTIER_external_command_redirect, hpipe,
          channel_fd]

/-- C13, the claim as stated fails: an Injection command that declares a Pipe redirect
whose file cannot be opened is received while the profile is Unknown (`0`), and
`XTIER_command_receive_external_command` stops after the failed `fopen`: the profile is
still Unknown and no set-profile request was sent. -/
theorem receive_external_command_profile_not_defaulted :
    initial_session.os = sample_header.XTIER_OS_UNKNOWN ∧
    receives_framed_injection initial_session unwritable_redirect_channel ∧
    (XTIER_command_receive_external_command sample_header unwritable_redirect_channel
        initial_session).1.os = sample_header.XTIER_OS_UNKNOWN ∧
    (XTIER_command_receive_external_command sample_header unwritable_redirect_channel
        initial_session).2.filter Event.is_set_state = [] := by
  refine ⟨by decide, ?_, by decide, by decide⟩
  unfold receives_framed_injection
  decide

/-- C13 (amended): when `XTIER_command_receive_external_command` receives a validly
framed Injection command whose declared Pipe redirect file, if any, can be opened, while
the guest-OS profile is Unknown, the profile becomes Linux-64 and exactly one set-profile
request, carrying Linux-64, is sent to the platform; when a profile is already configured
the profile is left unchanged and no set-profile request is sent, whatever arrives. -/
theorem receive_external_command_default_profile (K : XtierHeader) (C : Channel)
    (S : Session) :
    (receives_framed_injection S C → redirect_file_opens C → S.os = K.XTIER_OS_UNKNOWN →
      (XTIER_command_receive_external_command K C S).1.os = K.XTIER_OS_LINUX_64 ∧
      (XTIER_command_receive_external_command K C S).2.filter Event.is_set_state =
        [Event.ioctl_set_xtier_state K.XTIER_OS_LINUX_64]) ∧
    (S.os ≠ K.XTIER_OS_UNKNOWN →
      (XTIER_command_receive_external_command K C S).1.os = S.os ∧
      (XTIER_command_receive_external_command K C S).2.filter Event.is_set_state = []) := by
  refine ⟨?_, receive_external_command_configured K C S⟩
  intro hframe hfile hos
  obtain ⟨S', log, htype, hos', hlog, hstate, hrun⟩ :=
    receive_external_command_reaches_body_profile K C S hframe hfile
  obtain ⟨hbos, hbreq⟩ := receive_external_command_body_profile K C S' htype
  rw [hstate, hrun, List.filter_append, hlog, hbos, hbreq, hos']
  simp [hos]

/-- C13 (amended), at a concrete input: a command without redirect arrives while the
profile is Unknown (`0`); the profile becomes Linux-64 (`1`) with one request. -/
theorem receive_external_command_default_profile_witness :
    (XTIER_command_receive_external_command sample_header sample_channel
        initial_session).1.os = 1 ∧
    (XTIER_command_receive_external_command sample_header sample_channel
        initial_session).2.filter Event.is_set_state = [Event.ioctl_set_xtier_state 1] :=
  (receive_external_command_default_profile sample_header sample_channel initial_session).1
    (by unfold receives_framed_injection; decide)
    (by unfold redirect_file_opens; decide) rfl

/-! ## Order of pausing, synchronizing and asking on a VM-exit -/

/-- Once an event of kind `p` has happened before every event of kind `q`, what the
log goes on with does not matter. -/
theorem happens_before_append_left (p q : Event → Bool) (l₁ l₂ : List Event)
    (h : happens_before p q l₁ = true) : happens_before p q (l₁ ++ l₂) = true := by
  induction l₁ with
  | nil => simp [happens_before] at h
  | cons e rest ih =>
    simp only [List.cons_append, happens_before] at h ⊢
    split_ifs at h ⊢ with hp hq
    · rfl
    · exact ih h

/-- A log without events of kind `q` may precede. -/
theorem happens_before_append_right (p q : Event → Bool) (l₁ l₂ : List Event)
    (hnone : l₁.filter q = []) (h : happens_before p q l₂ = true) :
    happens_before p q (l₁ ++ l₂) = true := by
  induction l₁ with
  | nil => simpa using h
  | cons e rest ih =>
    cases hqe : q e with
    | true => simp [List.filter, hqe] at hnone
    | false =>
      have hrest : rest.filter q = [] := by simpa [List.filter, hqe] using hnone
      by_cases hp : p e = true
      · simp [happens_before, hp]
      · simp [happens_before, hp, hqe, ih hrest]

/-- The log of `XTIER_print_injection_performance` presents no question. -/
theorem print_injection_performance_no_question (D : Driver) (S : Session)
    (log : List Event) (hrun : XTIER_print_injection_performance D S = some log) :
    log.filter Event.is_question = [] := by
  unfold XTIER_print_injection_performance at hrun
  split at hrun
  · cases hrun
    rfl
  · split at hrun
    · cases hrun
    · cases hrun
      rfl

/-- While an injection is recorded, `XTIER_handle_injection_finished` returns. -/
theorem handle_injection_finished_defined (K : XtierHeader) (D : Driver) (S : Session)
    (hinj : S.injection ≠ none) :
    ∃ r, XTIER_handle_injection_finished K D S = some r := by
  obtain ⟨inj, hinj⟩ := Option.ne_none_iff_exists'.mp hinj
  obtain ⟨perf, hperf⟩ := print_injection_performance_defined D S inj hinj
  unfold XTIER_handle_injection_finished
  simp only [hperf]
  split_ifs
  · exact ⟨_, rfl⟩
  · split
    · exact ⟨_, rfl⟩
    · exact ⟨_, rfl⟩
  · exact ⟨_, rfl⟩

/-- The log of `XTIER_handle_injection_finished` presents no question. -/
theorem handle_injection_finished_no_question (K : XtierHeader) (D : Driver) (S : Session)
    (r : Session × List Event) (hrun : XTIER_handle_injection_finished K D S = some r) :
    r.2.filter Event.is_question = [] := by
  unfold XTIER_handle_injection_finished at hrun
  cases hperf : XTIER_print_injection_performance D S with
  | none => simp [hperf] at hrun
  | some perf =>
    have hquiet := print_injection_performance_no_question D S perf hperf
    simp only [hperf] at hrun
    split_ifs at hrun
    · cases hrun
      simp [List.filter_append, hquiet, List.filter, Event.is_question]
    · split at hrun
      · cases hrun
        simp [List.filter_append, hquiet, List.filter, Event.is_question]
      · cases hrun
        simp [List.filter_append, hquiet, List.filter, Event.is_question]
    · cases hrun
      simp [List.filter_append, hquiet, List.filter, Event.is_question]

/-- When the get-state request succeeds, `XTIER_handle_injection_finished` synchronizes
the register state. -/
theorem handle_injection_finished_synchronizes (K : XtierHeader) (D : Driver) (S : Session)
    (r : Session × List Event) (hrun : XTIER_handle_injection_finished K D S = some r)
    (hstate : 0 ≤ D.get_state) :
    happens_before Event.is_synchronize Event.is_question r.2 = true := by
  have hneg : ¬ D.get_state < 0 := by omega
  unfold XTIER_handle_injection_finished at hrun
  cases hperf : XTIER_print_injection_performance D S with
  | none => simp [hperf] at hrun
  | some perf =>
    have hquiet := print_injection_performance_no_question D S perf hperf
    simp only [hperf, hneg, if_false] at hrun
    split_ifs at hrun
    · split at hrun
      · cases hrun
        simp only [List.append_assoc]
        exact happens_before_append_right _ _ _ _ hquiet rfl
      · cases hrun
        simp only [List.append_assoc]
        exact happens_before_append_right _ _ _ _ hquiet rfl
    · cases hrun
      simp only [List.append_assoc]
      exact happens_before_append_right _ _ _ _ hquiet rfl

/-- The log of `XTIER_switch_to_XTIER_mode` pauses the guest before it presents a
question. -/
theorem switch_to_XTIER_mode_pauses_first (K : XtierHeader) (S : Session) :
    happens_before Event.is_vm_stop Event.is_question (XTIER_switch_to_XTIER_mode K S).2
      = true := by
  simp [XTIER_switch_to_XTIER_mode, happens_before, Event.is_vm_stop, Event.is_question]

/-- C15, the claim as stated fails, at three exits taken with the sample question
pending.  (1) A debug-request exit pauses the guest and presents the question without
any synchronization of the register state.  (2) An injection-finished exit whose
get-state request fails does the same.  (3) An injection-finished exit taken while no
injection is recorded, the request for the performance data succeeding, reads through
the null pointer `_injection` before the guest is paused: the behaviour is undefined. -/
theorem handle_exit_console_deviations :
    ((XTIER_handle_exit sample_header sample_platform sample_driver questioned_session
          sample_header.XTIER_EXIT_REASON_DEBUG).map Prod.snd =
        some [Event.switching_message, Event.vm_stop, Event.ask_question 8, Event.prompt,
          Event.start_getting_user_input, Event.prompt] ∧
      (XTIER_handle_exit sample_header sample_platform sample_driver questioned_session
          sample_header.XTIER_EXIT_REASON_DEBUG).map
          (fun r => happens_before Event.is_synchronize Event.is_question r.2) =
        some false) ∧
    ((XTIER_handle_exit sample_header sample_platform failing_driver
          redirected_questioned_session
          sample_header.XTIER_EXIT_REASON_INJECT_FINISHED).map Prod.snd =
        some [Event.ioctl_get_performance, Event.statistics "module",
          Event.ioctl_get_state, Event.error Msg.state_unavailable,
          Event.switching_message, Event.vm_stop, Event.ask_question 8, Event.prompt,
          Event.start_getting_user_input, Event.prompt] ∧
      (XTIER_handle_exit sample_header sample_platform failing_driver
          redirected_questioned_session
          sample_header.XTIER_EXIT_REASON_INJECT_FINISHED).map
          (fun r => happens_before Event.is_synchronize Event.is_question r.2) =
        some false) ∧
    (questioned_session.injection = none ∧ 0 ≤ sample_driver.get_performance ∧
      (XTIER_handle_exit sample_header sample_platform sample_driver questioned_session
          sample_header.XTIER_EXIT_REASON_INJECT_FINISHED).isSome = false) := by
  decide

/-- C15 (amended): every VM-exit that switches into console mode (injection finished,
taken while an injection is recorded; injection fault; debug request) is handled to the
end and pauses the guest before any pending question is presented to the operator; the
injection-fault exit, and the injection-finished exit whose get-state request succeeds,
also synchronize the register state before that. -/
theorem handle_exit_console_order (K : XtierHeader) (P : Platform) (D : Driver) (S : Session)
    (exit_reason : Nat) (hdistinct : distinct_exit_reasons K)
    (hconsole : exit_reason = K.XTIER_EXIT_REASON_INJECT_FINISHED ∨
      exit_reason = K.XTIER_EXIT_REASON_INJECT_FAULT ∨
      exit_reason = K.XTIER_EXIT_REASON_DEBUG)
    (hinj : exit_reason = K.XTIER_EXIT_REASON_INJECT_FINISHED → S.injection ≠ none) :
    ∃ r, XTIER_handle_exit K P D S exit_reason = some r ∧
      happens_before Event.is_vm_stop Event.is_question r.2 = true ∧
      (exit_reason = K.XTIER_EXIT_REASON_INJECT_FAULT ∨
          (exit_reason = K.XTIER_EXIT_REASON_INJECT_FINISHED ∧ 0 ≤ D.get_state) →
        happens_before Event.is_synchronize Event.is_question r.2 = true) := by
  unfold distinct_exit_reasons at hdistinct
  simp only [List.nodup_cons, List.mem_cons, List.mem_singleton, not_or, List.not_mem_nil,
    not_false_eq_true, List.nodup_nil, and_true] at hdistinct
  obtain ⟨⟨h12, h13, h14⟩, ⟨h23, h24⟩, h34⟩ := hdistinct
  rcases hconsole with h | h | h
  · subst h
    obtain ⟨a, ha⟩ := handle_injection_finished_defined K D S (hinj rfl)
    refine ⟨((XTIER_switch_to_XTIER_mode K a.1).1,
      a.2 ++ (XTIER_switch_to_XTIER_mode K a.1).2 ++ [Event.prompt]),
      by simp [XTIER_handle_exit, ha], ?_, ?_⟩
    · rw [List.append_assoc]
      exact happens_before_append_right _ _ _ _
        (handle_injection_finished_no_question K D S a ha)
        (happens_before_append_left _ _ _ _ (switch_to_XTIER_mode_pauses_first K _))
    · intro hsync
      have hstate : 0 ≤ D.get_state := by
        rcases hsync with h | h
        · exact absurd h h12
        · exact h.2
      rw [List.append_assoc]
      exact happens_before_append_left _ _ _ _
        (handle_injection_finished_synchronizes K D S a ha hstate)
  · subst h
    have hne : K.XTIER_EXIT_REASON_INJECT_FAULT ≠ K.XTIER_EXIT_REASON_INJECT_FINISHED :=
      Ne.symm h12
    refine ⟨((XTIER_switch_to_XTIER_mode K (XTIER_handle_injection_fault S).1).1,
      (XTIER_handle_injection_fault S).2
        ++ (XTIER_switch_to_XTIER_mode K (XTIER_handle_injection_fault S).1).2
        ++ [Event.prompt]), by simp [XTIER_handle_exit, hne], ?_, ?_⟩
    · rw [List.append_assoc]
      exact happens_before_append_right _ _ _ _ rfl
        (happens_before_append_left _ _ _ _ (switch_to_XTIER_mode_pauses_first K _))
    · intro _
      rw [List.append_assoc]
      exact happens_before_append_left _ _ _ _ rfl
  · subst h
    have hne1 : K.XTIER_EXIT_REASON_DEBUG ≠ K.XTIER_EXIT_REASON_INJECT_FINISHED :=
      Ne.symm h14
    have hne2 : K.XTIER_EXIT_REASON_DEBUG ≠ K.XTIER_EXIT_REASON_INJECT_FAULT := Ne.symm h24
    have hne3 : K.XTIER_EXIT_REASON_DEBUG ≠ K.XTIER_EXIT_REASON_INJECT_COMMAND :=
      Ne.symm h34
    refine ⟨((XTIER_switch_to_XTIER_mode K S).1,
      (XTIER_switch_to_XTIER_mode K S).2 ++ [Event.prompt]),
      by simp [XTIER_handle_exit, hne1, hne2, hne3], ?_, ?_⟩
    · exact happens_before_append_left _ _ _ _ (switch_to_XTIER_mode_pauses_first K _)
    · intro hsync
      rcases hsync with h | h
      · exact absurd h hne2
      · exact absurd h.1 hne1

/-- C15 (amended), at a concrete input: an injection-finished exit, taken while the
injection `module` is recorded and the sample question is pending. -/
theorem handle_exit_console_order_witness :
    ∃ r, XTIER_handle_exit sample_header sample_platform sample_driver
        redirected_questioned_session 100 = some r ∧
      r.2 = [Event.ioctl_get_performance, Event.statistics "module", Event.ioctl_get_state,
          Event.finished_message 42, Event.fprintf 7 [82, 42],
          Event.fprintf 7 [69, 78, 68], Event.fclose 7, Event.cpu_synchronize_state,
          Event.switching_message, Event.vm_stop, Event.ask_question 8, Event.prompt,
          Event.start_getting_user_input, Event.prompt] ∧
      happens_before Event.is_vm_stop Event.is_question r.2 = true ∧
      happens_before Event.is_synchronize Event.is_question r.2 = true := by
  obtain ⟨r, hrun, hstop, hsync⟩ := handle_exit_console_order sample_header sample_platform
    sample_driver redirected_questioned_session 100
    (by unfold distinct_exit_reasons; decide) (Or.inl rfl) (fun _ => by decide)
  have hlog : (XTIER_handle_exit sample_header sample_platform sample_driver
      redirected_questioned_session 100).map Prod.snd =
      some [Event.ioctl_get_performance, Event.statistics "module", Event.ioctl_get_state,
          Event.finished_message 42, Event.fprintf 7 [82, 42],
          Event.fprintf 7 [69, 78, 68], Event.fclose 7, Event.cpu_synchronize_state,
          Event.switching_message, Event.vm_stop, Event.ask_question 8, Event.prompt,
          Event.start_getting_user_input, Event.prompt] := by decide
  rw [hrun] at hlog
  exact ⟨r, hrun, Option.some.inj hlog, hstop, hsync (Or.inr ⟨rfl, by decide⟩)⟩

/-! ## Command and question pointers between inputs -/

/-- After `XTIER_handle_input` no command is current. -/
theorem handle_input_clears_command (K : XtierHeader) (T : Compiler) (C : Channel)
    (S : Session) (cmdline : List Char) (r : Session × List Event)
    (hrun : XTIER_handle_input K T C S cmdline = some r) :
    r.1.current_command = none := by
  unfold XTIER_handle_input at hrun
  cases hcopy : strcpy_to_array T cmdline with
  | none => simp [hcopy] at hrun
  | some cmdline_copy =>
    simp only [hcopy] at hrun
    generalize handle_input_command_loop S (strtok_tokens cmdline_copy []) 0 = looped at hrun
    cases hcmd : looped.1.current_command with
    | some cmd =>
      simp only [hcmd] at hrun
      obtain ⟨called, _, hcalled⟩ := Option.map_eq_some'.mp hrun
      rw [← hcalled]
    | none =>
      simp only [hcmd] at hrun
      cases hq : looped.1.current_question with
      | none =>
        simp only [hq] at hrun
        cases hrun
        exact hcmd
      | some q =>
        simp only [hq] at hrun
        split_ifs at hrun
        · cases hrun
          rfl
        · split at hrun
          · cases hrun
            rfl
          · split at hrun
            · cases hrun
              rfl
            · cases hrun
              rfl

/-- C16, the claim as stated fails: console mode is entered from the initial state and
the operator enters `help`; in the state reached neither the current-command pointer nor
the current-question pointer is set. -/
theorem handle_inputs_neither_pointer_set :
    (handle_inputs sample_header sample_compiler
        (XTIER_switch_to_XTIER_mode sample_header initial_session).1
        [(sample_channel, "help".toList)]).map
        (fun reached => (reached.current_command.isSome, reached.current_question.isSome)) =
      some (false, false) := by
  decide

/-- C16 (amended): in every console state reached by a sequence of `XTIER_handle_input`
calls after console mode was entered with no current command, the current-command
pointer is not set; so the current-command pointer and the current-question pointer are
never both set (and both may be unset). -/
theorem handle_inputs_command_not_set (K : XtierHeader) (T : Compiler) (S : Session)
    (inputs : List (Channel × List Char)) (reached : Session)
    (hentry : S.current_command = none)
    (hreached : handle_inputs K T S inputs = some reached) :
    reached.current_command = none ∧
    ¬ (reached.current_command.isSome = true ∧ reached.current_question.isSome = true) := by
  have hcmd : reached.current_command = none := by
    induction inputs generalizing S with
    | nil =>
      cases hreached
      exact hentry
    | cons input rest ih =>
      obtain ⟨C, cmdline⟩ := input
      unfold handle_inputs at hreached
      cases hrun : XTIER_handle_input K T C S cmdline with
      | none => simp [hrun] at hreached
      | some r =>
        simp only [hrun] at hreached
        exact ih r.1 (handle_input_clears_command K T C S cmdline r hrun) hreached
  refine ⟨hcmd, ?_⟩
  rw [hcmd]
  simp

/-- C16 (amended), at a concrete input: the sample question is pending, the operator
enters `help` and then `2`; a state is reached, and in it no command is current. -/
theorem handle_inputs_command_not_set_witness :
    ∃ reached,
      handle_inputs sample_header sample_compiler questioned_session
        [(sample_channel, "help".toList), (sample_channel, "2".toList)] = some reached ∧
      reached.current_command = none := by
  cases hreached : handle_inputs sample_header sample_compiler questioned_session
      [(sample_channel, "help".toList), (sample_channel, "2".toList)] with
  | none =>
    have hsome : (handle_inputs sample_header sample_compiler questioned_session
        [(sample_channel, "help".toList), (sample_channel, "2".toList)]).isSome = true := by
      decide
    rw [hreached] at hsome
    exact Bool.noConfusion hsome
  | some reached =>
    exact ⟨reached, rfl, (handle_inputs_command_not_set sample_header sample_compiler
      questioned_session [(sample_channel, "help".toList), (sample_channel, "2".toList)]
      reached rfl hreached).1⟩

/-! ## Word wrapping of help texts -/

/-- The characters of a line whose words are each followed by a blank. -/
theorem blank_terminated_length_eq (line : List (List Char)) :
    blank_terminated_length line = (line.map List.length).sum + line.length := by
  induction line with
  | nil => rfl
  | cons w rest ih =>
    simp only [blank_terminated_length, List.map_cons, List.sum_cons, List.length_cons] at ih ⊢
    omega

/-- A word appended to a line: the blank-terminated line before it and the word make
up the new line. -/
theorem line_length_append_word (line : List (List Char)) (w : List Char) :
    line_length (line ++ [w]) = blank_terminated_length line + w.length := by
  rw [blank_terminated_length_eq]
  simp [line_length]
  omega

/-- A word and its blank appended to a blank-terminated line. -/
theorem blank_terminated_length_append_word (line : List (List Char)) (w : List Char) :
    blank_terminated_length (line ++ [w]) = blank_terminated_length line + (w.length + 1) := by
  simp [blank_terminated_length]

/-- Reading the characters of a word adds them to the token being read. -/
theorem strtok_words_word (w s cur : List Char) (hw : ∀ c ∈ w, ¬ is_separator c) :
    strtok_words (w ++ s) cur = strtok_words s (w.reverse ++ cur) := by
  induction w generalizing cur with
  | nil => rfl
  | cons c rest ih =>
    have hc : ¬ (c = ' ' ∨ c = '\n') := hw c (List.mem_cons_self _ _)
    have hrest : ∀ d ∈ rest, ¬ is_separator d := fun d hd => hw d (List.mem_cons_of_mem _ hd)
    show strtok_words (c :: (rest ++ s)) cur = _
    simp only [strtok_words, hc, if_false]
    rw [ih (c :: cur) hrest]
    simp

/-- A separator after a word ends the word. -/
theorem strtok_words_word_separator (w s : List Char) (c : Char) (hw : ∀ d ∈ w, ¬ is_separator d)
    (hne : w ≠ []) (hc : is_separator c) :
    strtok_words (w ++ c :: s) [] = w :: strtok_words s [] := by
  have hc' : c = ' ' ∨ c = '\n' := hc
  have hrev : w.reverse ≠ [] := by simpa using hne
  rw [strtok_words_word w (c :: s) [] hw]
  simp [strtok_words, hc', hrev]

/-- Blanks between words are skipped. -/
theorem strtok_words_blanks (k : Nat) (s : List Char) :
    strtok_words (List.replicate k ' ' ++ s) [] = strtok_words s [] := by
  induction k with
  | zero => rfl
  | succ n ih => simp [List.replicate_succ, strtok_words, ih]

/-- The tokens that `strtok` returns are not empty and hold no separator. -/
theorem strtok_words_proper (data : List Char) :
    ∀ cur : List Char, (∀ c ∈ cur, ¬ is_separator c) →
      ∀ w ∈ strtok_words data cur, w ≠ [] ∧ ∀ c ∈ w, ¬ is_separator c := by
  induction data with
  | nil =>
    intro cur hcur w hw
    by_cases hempty : cur = []
    · simp [strtok_words, hempty] at hw
    · simp only [strtok_words, hempty, if_false, List.mem_singleton] at hw
      subst hw
      exact ⟨by simpa using hempty, fun c hc => hcur c (List.mem_reverse.mp hc)⟩
  | cons c rest ih =>
    intro cur hcur w hw
    by_cases hsep : c = ' ' ∨ c = '\n'
    · by_cases hempty : cur = []
      · simp only [strtok_words, hsep, hempty, if_true] at hw
        exact ih [] (by simp) w hw
      · simp only [strtok_words, hsep, hempty, if_true, if_false, List.mem_cons] at hw
        rcases hw with rfl | hw
        · exact ⟨by simpa using hempty, fun d hd => hcur d (List.mem_reverse.mp hd)⟩
        · exact ih [] (by simp) w hw
    · simp only [strtok_words, hsep, if_false] at hw
      refine ih (c :: cur) ?_ w hw
      intro d hd
      rcases List.mem_cons.mp hd with rfl | hd
      · exact hsep
      · exact hcur d hd

/-- The tokens that `strtok` returns on a text after the characters `cur` of a token
begun: the pieces between the separators, the first one preceded by that beginning,
without the empty pieces. -/
theorem strtok_words_of_pieces (data : List Char) :
    ∀ cur : List Char,
      strtok_words data cur =
        ((data.splitOnP (fun c => decide (c = ' ') || decide (c = '\n'))).modifyHead
          (fun piece => cur.reverse ++ piece)).filter (fun w => !w.isEmpty) := by
  induction data with
  | nil =>
    intro cur
    by_cases hcur : cur = []
    · simp [strtok_words, hcur, List.modifyHead]
    · simp [strtok_words, hcur, List.modifyHead]
  | cons c cs ih =>
    intro cur
    have hid : ∀ l : List (List Char),
        l.modifyHead (fun piece => ([] : List Char).reverse ++ piece) = l := by
      intro l
      cases l <;> simp [List.modifyHead]
    by_cases hsep : c = ' ' ∨ c = '\n'
    · have hp : (decide (c = ' ') || decide (c = '\n')) = true := by simpa using hsep
      rw [List.splitOnP_cons, if_pos hp]
      have hrest := ih []
      rw [hid] at hrest
      by_cases hcur : cur = []
      · simp [strtok_words, hsep, hcur, hrest, List.modifyHead]
      · simp [strtok_words, hsep, hcur, hrest, List.modifyHead]
    · have hp : ¬ (decide (c = ' ') || decide (c = '\n')) = true := by simpa using hsep
      rw [List.splitOnP_cons, if_neg hp, List.modifyHead_modifyHead]
      have hfun : ((fun piece => cur.reverse ++ piece) ∘ List.cons c) =
          (fun piece => (c :: cur).reverse ++ piece) := by
        funext piece
        simp
      rw [hfun, ← ih (c :: cur)]
      simp [strtok_words, hsep]

/-- The tokens that `strtok` returns on a description are its words. -/
theorem strtok_words_eq_description_words (data : List Char) :
    strtok_words data [] = description_words data := by
  rw [strtok_words_of_pieces data []]
  unfold description_words
  congr 1
  cases List.splitOnP (fun c => decide (c = ' ') || decide (c = '\n')) data <;>
    simp [List.modifyHead]

/-- The wrapping loop on words that all fit the width: enough iterations are provided
for, every word is emitted in order, no warning is given, no line is longer than the
width, and the characters put out, split at blanks and line feeds, are the words again.
`cur` holds the words already on the current line. -/
theorem print_long_line_loop_fits (padding_left width : Int) (data : List Char) :
    ∀ (fuel : Nat) (tokens : List (List Char)) (printed : Nat) (space_left : Int)
      (cur : List (List Char)),
      (∀ w ∈ tokens, (w.length : Int) ≤ width) →
      (∀ w ∈ tokens, w ≠ [] ∧ ∀ c ∈ w, ¬ is_separator c) →
      (2 * tokens.length ≤ fuel ∨ (space_left = width ∧ 2 * tokens.length ≤ fuel + 1)) →
      space_left = width - (blank_terminated_length cur : Int) →
      (cur ≠ [] → (line_length cur : Int) ≤ width) →
      ∃ out,
        print_long_line_loop padding_left width data fuel tokens printed space_left
          = some out ∧
        emitted_words out = tokens ∧
        strtok_words (rendered out) [] = tokens ∧
        LineOutput.warning_word_too_long ∉ out ∧
        ∀ line ∈ output_lines out cur, line ≠ [] → (line_length line : Int) ≤ width := by
  have hdone : ∀ (fuel printed : Nat) (space_left : Int) (cur : List (List Char)),
      (cur ≠ [] → (line_length cur : Int) ≤ width) →
      ∃ out,
        print_long_line_loop padding_left width data fuel [] printed space_left = some out ∧
        emitted_words out = [] ∧ strtok_words (rendered out) [] = [] ∧
        LineOutput.warning_word_too_long ∉ out ∧
        ∀ line ∈ output_lines out cur, line ≠ [] → (line_length line : Int) ≤ width := by
    intro fuel printed space_left cur hcur
    refine ⟨[LineOutput.newline], by simp [print_long_line_loop], rfl,
      by simp [rendered, strtok_words], by simp, ?_⟩
    intro line hline hne
    simp [output_lines] at hline
    rcases hline with rfl | rfl
    · exact hcur hne
    · exact absurd rfl hne
  intro fuel
  induction fuel with
  | zero =>
    intro tokens printed space_left cur hfit hproper hfuel hleft hcur
    cases tokens with
    | nil => exact hdone 0 printed space_left cur hcur
    | cons t rest =>
      simp only [List.length_cons] at hfuel
      omega
  | succ n ih =>
    intro tokens printed space_left cur hfit hproper hfuel hleft hcur
    cases tokens with
    | nil => exact hdone (n + 1) printed space_left cur hcur
    | cons t rest =>
      have ht : (t.length : Int) ≤ width := hfit t (List.mem_cons_self _ _)
      have hrest : ∀ w ∈ rest, (w.length : Int) ≤ width := fun w hw =>
        hfit w (List.mem_cons_of_mem _ hw)
      have htp := hproper t (List.mem_cons_self _ _)
      have hrestp : ∀ w ∈ rest, w ≠ [] ∧ ∀ c ∈ w, ¬ is_separator c := fun w hw =>
        hproper w (List.mem_cons_of_mem _ hw)
      have hnot : ¬ (t.length : Int) > width := by omega
      simp only [List.length_cons] at hfuel
      by_cases hroom : space_left - (t.length : Int) ≥ 0
      · have hline : ((line_length (cur ++ [t]) : Nat) : Int) ≤ width := by
          rw [line_length_append_word]
          push_cast
          omega
        by_cases hblank : data.getD (printed + t.length) (Char.ofNat 0) = ' '
        · obtain ⟨out, hout, hwords, hchars, hwarn, hlines⟩ :=
            ih rest (printed + t.length + 1) (space_left - ((t.length : Int) + 1))
              (cur ++ [t]) hrest hrestp (Or.inl (by omega))
              (by
                rw [blank_terminated_length_append_word]
                push_cast
                omega)
              (fun _ => hline)
          refine ⟨LineOutput.word_and_blank t :: out, ?_, ?_, ?_, ?_, ?_⟩
          · simp only [print_long_line_loop, hnot, hroom, hblank, if_true, if_false, hout,
              Option.map_some']
          · simp [emitted_words, hwords]
          · show strtok_words (t ++ ' ' :: rendered out) [] = t :: rest
            rw [strtok_words_word_separator t _ ' ' htp.2 htp.1 (Or.inl rfl), hchars]
          · simp [hwarn]
          · simpa [output_lines] using hlines
        · obtain ⟨out, hout, hwords, hchars, hwarn, hlines⟩ :=
            ih rest (printed + t.length + 1) width [] hrest hrestp (Or.inl (by omega))
              (by simp [blank_terminated_length]) (fun h => absurd rfl h)
          refine ⟨LineOutput.word t :: LineOutput.newline_and_padding padding_left :: out,
            ?_, ?_, ?_, ?_, ?_⟩
          · simp only [print_long_line_loop, hnot, hroom, hblank, if_true, if_false, hout,
              Option.map_some']
          · simp [emitted_words, hwords]
          · show strtok_words
                (t ++ '\n' :: (List.replicate padding_left.natAbs ' ' ++ rendered out)) []
                = t :: rest
            rw [strtok_words_word_separator t _ '\n' htp.2 htp.1 (Or.inr rfl),
              strtok_words_blanks, hchars]
          · simp [hwarn]
          · intro line hmem hne
            simp only [output_lines, List.mem_cons] at hmem
            rcases hmem with rfl | hmem
            · exact hline
            · exact hlines line hmem hne
      · have hfuel' : 2 * (rest.length + 1) ≤ n ∨
            (width = width ∧ 2 * (rest.length + 1) ≤ n + 1) := by
          rcases hfuel with h | ⟨hw, h⟩
          · exact Or.inr ⟨rfl, by omega⟩
          · exfalso
            rw [hw] at hroom
            omega
        obtain ⟨out, hout, hwords, hchars, hwarn, hlines⟩ :=
          ih (t :: rest) printed width [] hfit hproper (by simpa using hfuel')
            (by simp [blank_terminated_length]) (fun h => absurd rfl h)
        refine ⟨LineOutput.newline_and_padding padding_left :: out, ?_, ?_, ?_, ?_, ?_⟩
        · simp only [print_long_line_loop, hnot, hroom, if_false, hout, Option.map_some']
        · simp [emitted_words, hwords]
        · show strtok_words
              ('\n' :: (List.replicate padding_left.natAbs ' ' ++ rendered out)) []
              = t :: rest
          simp only [strtok_words, or_true, if_true]
          rw [strtok_words_blanks, hchars]
        · simp [hwarn]
        · intro line hmem hne
          simp only [output_lines, List.mem_cons] at hmem
          rcases hmem with rfl | hmem
          · exact hcur hne
          · exact hlines line hmem hne

/-- The wrapping loop on words of which `w` is the first that is longer than the
width: the words before `w` are emitted, then the warning is given and nothing else. -/
theorem print_long_line_loop_stops (padding_left width : Int) (data : List Char)
    (w : List Char) (post : List (List Char)) (hlong : width < (w.length : Int)) :
    ∀ (fuel : Nat) (pre : List (List Char)) (printed : Nat) (space_left : Int),
      (∀ v ∈ pre, (v.length : Int) ≤ width) →
      (∀ v ∈ pre, v ≠ [] ∧ ∀ c ∈ v, ¬ is_separator c) →
      (2 * (pre ++ w :: post).length ≤ fuel ∨
        (space_left = width ∧ 2 * (pre ++ w :: post).length ≤ fuel + 1)) →
      ∃ out,
        print_long_line_loop padding_left width data fuel (pre ++ w :: post) printed
          space_left = some (out ++ [LineOutput.warning_word_too_long]) ∧
        emitted_words out = pre ∧ strtok_words (rendered out) [] = pre ∧
        LineOutput.warning_word_too_long ∉ out := by
  intro fuel
  induction fuel with
  | zero =>
    intro pre printed space_left hfit hproper hfuel
    simp only [List.length_append, List.length_cons] at hfuel
    omega
  | succ n ih =>
    intro pre printed space_left hfit hproper hfuel
    cases pre with
    | nil =>
      refine ⟨[], ?_, rfl, rfl, by simp⟩
      have hgt : (w.length : Int) > width := hlong
      simp only [List.nil_append, print_long_line_loop, hgt, if_true]
    | cons t rest =>
      have ht : (t.length : Int) ≤ width := hfit t (List.mem_cons_self _ _)
      have hrest : ∀ v ∈ rest, (v.length : Int) ≤ width := fun v hv =>
        hfit v (List.mem_cons_of_mem _ hv)
      have htp := hproper t (List.mem_cons_self _ _)
      have hrestp : ∀ v ∈ rest, v ≠ [] ∧ ∀ c ∈ v, ¬ is_separator c := fun v hv =>
        hproper v (List.mem_cons_of_mem _ hv)
      have hnot : ¬ (t.length : Int) > width := by omega
      simp only [List.cons_append, List.length_cons] at hfuel
      by_cases hroom : space_left - (t.length : Int) ≥ 0
      · by_cases hblank : data.getD (printed + t.length) (Char.ofNat 0) = ' '
        · obtain ⟨out, hout, hwords, hchars, hwarn⟩ :=
            ih rest (printed + t.length + 1) (space_left - ((t.length : Int) + 1)) hrest
              hrestp (Or.inl (by omega))
          refine ⟨LineOutput.word_and_blank t :: out, ?_, ?_, ?_, ?_⟩
          · show print_long_line_loop padding_left width data (n + 1)
                (t :: (rest ++ w :: post)) printed space_left = _
            simp only [print_long_line_loop, hnot, hroom, hblank, if_true, if_false, hout,
              Option.map_some']
            rfl
          · simp [emitted_words, hwords]
          · show strtok_words (t ++ ' ' :: rendered out) [] = t :: rest
            rw [strtok_words_word_separator t _ ' ' htp.2 htp.1 (Or.inl rfl), hchars]
          · simp [hwarn]
        · obtain ⟨out, hout, hwords, hchars, hwarn⟩ :=
            ih rest (printed + t.length + 1) width hrest hrestp (Or.inl (by omega))
          refine ⟨LineOutput.word t :: LineOutput.newline_and_padding padding_left :: out,
            ?_, ?_, ?_, ?_⟩
          · show print_long_line_loop padding_left width data (n + 1)
                (t :: (rest ++ w :: post)) printed space_left = _
            simp only [print_long_line_loop, hnot, hroom, hblank, if_true, if_false, hout,
              Option.map_some']
            rfl
          · simp [emitted_words, hwords]
          · show strtok_words
                (t ++ '\n' :: (List.replicate padding_left.natAbs ' ' ++ rendered out)) []
                = t :: rest
            rw [strtok_words_word_separator t _ '\n' htp.2 htp.1 (Or.inr rfl),
              strtok_words_blanks, hchars]
          · simp [hwarn]
      · have hfuel' : 2 * ((t :: rest) ++ w :: post).length ≤ n ∨
            (width = width ∧ 2 * ((t :: rest) ++ w :: post).length ≤ n + 1) := by
          have hlen : ((t :: rest) ++ w :: post).length = (rest ++ w :: post).length + 1 :=
            rfl
          rw [hlen]
          rcases hfuel with h | ⟨hw, h⟩
          · exact Or.inr ⟨rfl, by omega⟩
          · exfalso
            rw [hw] at hroom
            omega
        obtain ⟨out, hout, hwords, hchars, hwarn⟩ :=
          ih (t :: rest) printed width hfit hproper hfuel'
        refine ⟨LineOutput.newline_and_padding padding_left :: out, ?_, ?_, ?_, ?_⟩
        · show print_long_line_loop padding_left width data (n + 1)
              (t :: (rest ++ w :: post)) printed space_left = _
          have hout' : print_long_line_loop padding_left width data n
              (t :: (rest ++ w :: post)) printed width =
              some (out ++ [LineOutput.warning_word_too_long]) := hout
          simp only [print_long_line_loop, hnot, hroom, if_false, hout', Option.map_some']
          rfl
        · simp [emitted_words, hwords]
        · show strtok_words
              ('\n' :: (List.replicate padding_left.natAbs ' ' ++ rendered out)) []
              = t :: rest
          simp only [strtok_words, or_true, if_true]
          rw [strtok_words_blanks, hchars]
        · simp [hwarn]

/-- The wrapping of `_print_long_line` on a description that, with its terminating
zero, fits the storage of `data_copy`.  If no word is longer than `width`, the function
returns, having emitted every word of the description whole and in order, without a
warning: the words it hands to the output calls are the words of the description, and
the characters it puts out, split at blanks and line feeds, are these words again, so
that lines are broken only between words; the words of any one output line, with one
blank between neighbours, total at most `width` characters.  If some word is longer than
`width`, the function emits the words before the first such word, then gives the warning
and emits nothing further. -/
theorem print_long_line_wraps (T : Compiler) (padding_left width : Int) (data : List Char)
    (hfits : copy_fits T data) :
    ((∀ w ∈ description_words data, (w.length : Int) ≤ width) →
      ∃ out, _print_long_line T padding_left width data = some out ∧
        emitted_words out = description_words data ∧
        description_words (rendered out) = description_words data ∧
        LineOutput.warning_word_too_long ∉ out ∧
        ∀ line ∈ output_lines out [], line ≠ [] → (line_length line : Int) ≤ width) ∧
    (∀ pre w post, description_words data = pre ++ w :: post →
      (∀ v ∈ pre, (v.length : Int) ≤ width) → width < (w.length : Int) →
      ∃ out,
        _print_long_line T padding_left width data =
          some (out ++ [LineOutput.warning_word_too_long]) ∧
        emitted_words out = pre ∧ description_words (rendered out) = pre ∧
        LineOutput.warning_word_too_long ∉ out) := by
  have hproper := strtok_words_proper data [] (by simp)
  have hcopy : strcpy_to_array T data = some data := by
    unfold copy_fits at hfits
    simp [strcpy_to_array, hfits]
  have hrun : _print_long_line T padding_left width data =
      print_long_line_loop padding_left width data (2 * (strtok_words data []).length)
        (strtok_words data []) 0 width := by
    simp [_print_long_line, hcopy]
  rw [hrun]
  simp only [← strtok_words_eq_description_words] at *
  constructor
  · intro hfit
    exact print_long_line_loop_fits padding_left width data _ _ 0 width [] hfit hproper
      (Or.inl (le_refl _)) (by simp [blank_terminated_length]) (fun h => absurd rfl h)
  · intro pre w post hsplit hfit hlong
    have hpre : ∀ v ∈ pre, v ≠ [] ∧ ∀ c ∈ v, ¬ is_separator c := by
      intro v hv
      exact hproper v (by rw [hsplit]; exact List.mem_append_left _ hv)
    rw [hsplit]
    exact print_long_line_loop_stops padding_left width data w post hlong _ pre 0 width hfit
      hpre (Or.inl (le_refl _))

/-- When the copy of the description fits the storage of `data_copy`, `_print_long_line`
returns: its result is `none` only for a copy that leaves the storage. -/
theorem print_long_line_defined (T : Compiler) (padding_left width : Int) (data : List Char)
    (hfits : copy_fits T data) :
    ∃ out, _print_long_line T padding_left width data = some out := by
  by_cases hall : ∀ w ∈ description_words data, (w.length : Int) ≤ width
  · obtain ⟨out, hout, _⟩ := (print_long_line_wraps T padding_left width data hfits).1 hall
    exact ⟨out, hout⟩
  · cases hfind : (description_words data).find?
        (fun w => decide (width < (w.length : Int))) with
    | none =>
      exfalso
      apply hall
      intro w hw
      have hw_fits := List.find?_eq_none.mp hfind w hw
      simpa using hw_fits
    | some w =>
      obtain ⟨pre, post, hsplit, hpre, hw⟩ := find_first_decomposes _ _ w hfind
      obtain ⟨out, hout, _⟩ := (print_long_line_wraps T padding_left width data hfits).2
        pre w post hsplit (fun v hv => by simpa using hpre v hv) (by simpa using hw)
      exact ⟨out ++ [LineOutput.warning_word_too_long], hout⟩

/-- The description of the `monitor` command, 47 characters, wrapped at 40 columns as
`XTIER_print_help` does. -/
theorem print_long_line_wraps_monitor_description :
    _print_long_line sample_compiler 30 40
        "Return to 'monitor' Mode, but do not resume VM.".toList =
      some [LineOutput.word_and_blank "Return".toList, LineOutput.word_and_blank "to".toList,
        LineOutput.word_and_blank "'monitor'".toList,
        LineOutput.word_and_blank "Mode,".toList, LineOutput.word_and_blank "but".toList,
        LineOutput.word_and_blank "do".toList, LineOutput.word_and_blank "not".toList,
        LineOutput.newline_and_padding 30, LineOutput.word_and_blank "resume".toList,
        LineOutput.word "VM.".toList, LineOutput.newline_and_padding 30,
        LineOutput.newline] := by
  decide

end XTier
